import Mathlib

/-!
# Verification of the `ogmo3` crate's level/project model

A shallow embedding of the `ogmo3` Rust crate (files `src/lib.rs`,
`src/level.rs`, `src/project.rs`), which parses and serializes the JSON
documents produced by Ogmo Editor 3.

Modelling conventions:

* The generic JSON layer (`serde_json`'s text lexer/printer) is external to
  the crate per the spec, so parsing and serialization are embedded at the
  level of generic JSON value trees (`Json` below), not text.
* JSON numbers are modelled as exact rationals (`Rat`).  Rust's `f32` fields
  become `Rat` (floating-point rounding is abstracted away; the spec treats
  the value tree as carrying exact numbers), and `i32` fields become `Int`,
  with the deserializer checking integrality and the 32-bit signed range the
  way `serde_json` rejects non-integral or out-of-range numbers for `i32`.
* `HashMap<String, Value>` fields are modelled as association lists in
  document order; object equality of emitted trees never depends on order.
* Structs deserialize from JSON objects; serde's positional (array) struct
  encoding, and its duplicate-field error, are outside the fragment
  modelled here (first occurrence of a field name wins on lookup).
* Rust iterator pipelines (`unpack`, `tile_coords`) are embedded as the
  fully-consumed list of produced items.  The two panics the pipelines can
  hit — `%`/`/` by zero when `grid_cells_x == 0`, and out-of-bounds
  indexing `coords[0]`/`coords[1]` — are embedded as `Option` failures.
* Rust's `i32` `%` and `/` truncate toward zero, so they are embedded as
  `Int.tmod` and `Int.tdiv`.
-/

namespace Ogmo

/-- A generic JSON value tree, as produced by the external JSON layer
(`serde_json::Value`).  Object fields are kept in document order. -/
inductive Json where
  | null : Json
  | bool (b : Bool) : Json
  | num (q : Rat) : Json
  | str (s : String) : Json
  | arr (elems : List Json) : Json
  | obj (fields : List (String × Json)) : Json

/-- Look up the first field with the given name in an object's field list. -/
def getField : List (String × Json) → String → Option Json
  | [], _ => none
  | (k, v) :: rest, name => if k = name then some v else getField rest name

/-- The field list of a JSON object. -/
abbrev JObj := List (String × Json)

/-- Find the first field (in document order) whose name is one of `names`.
This models how serde's `FlatMapDeserializer` locates the externally-tagged
variant key of a `#[serde(flatten)]`-ed enum among the buffered fields. -/
def findField : List (String × Json) → List String → Option (String × Json)
  | [], _ => none
  | (k, v) :: rest, names => if k ∈ names then some (k, v) else findField rest names

/-- The field list of a JSON object (`none` for any other kind of value). -/
def Json.asObj : Json → Option (List (String × Json))
  | .obj fields => some fields
  | _ => none

/-- Field lookup directly on a JSON value. -/
def Json.getF (j : Json) (name : String) : Option Json :=
  match j with
  | .obj fields => getField fields name
  | _ => none

/-- Sequential fallible traversal of a list (the `Option`-monad `mapM`,
written as a plain structural recursion): the first failing element fails
the whole traversal, mirroring how serde decodes sequences and maps. -/
def mapMo {α β : Type} : List α → (α → Option β) → Option (List β)
  | [], _ => some []
  | a :: rest, f =>
      match f a with
      | none => none
      | some b =>
          match mapMo rest f with
          | none => none
          | some bs => some (b :: bs)

/-- Fuel-bounded structural equality of JSON trees: objects are compared as
key-value mappings (field order insensitive, both directions), arrays
pointwise, numbers as exact rationals.  The fuel is only a termination
device; `jsonEq` below supplies enough fuel for its two arguments. -/
def jsonEqFuel : Nat → Json → Json → Bool
  | 0, _, _ => false
  | _ + 1, .null, .null => true
  | _ + 1, .bool a, .bool b => a == b
  | _ + 1, .num a, .num b => decide (a = b)
  | _ + 1, .str a, .str b => a == b
  | fuel + 1, .arr xs, .arr ys =>
      xs.length == ys.length &&
        (xs.zip ys).all (fun p => jsonEqFuel fuel p.1 p.2)
  | fuel + 1, .obj fs, .obj gs =>
      (fs.all fun kv =>
        match getField gs kv.1 with
        | some v => jsonEqFuel fuel kv.2 v
        | none => false) &&
      (gs.all fun kv =>
        match getField fs kv.1 with
        | some v => jsonEqFuel fuel v kv.2
        | none => false)
  | _ + 1, _, _ => false

mutual

/-- The number of nodes of a JSON tree; an executable bound used to supply
fuel for `jsonEqFuel`. -/
def Json.size : Json → Nat
  | .null => 1
  | .bool _ => 1
  | .num _ => 1
  | .str _ => 1
  | .arr es => 1 + Json.sizeList es
  | .obj fs => 1 + Json.sizeFields fs

def Json.sizeList : List Json → Nat
  | [] => 0
  | j :: rest => Json.size j + Json.sizeList rest

def Json.sizeFields : List (String × Json) → Nat
  | [] => 0
  | kv :: rest => Json.size kv.2 + Json.sizeFields rest

end

/-- Structural equality of two JSON value trees ("equality as generic JSON
values, not as text"): field order and duplicate-free key sets compared as
mappings. -/
def jsonEq (a b : Json) : Bool :=
  jsonEqFuel (a.size + b.size) a b

/-- An X and Y value (`Vec2<T>` from `src/lib.rs`). -/
structure Vec2 (α : Type) where
  x : α
  y : α
deriving DecidableEq

/-- A dynamically typed value (`Value` from `src/level.rs`): serde-untagged
over boolean / string / number, so it is reconstructed by JSON shape alone. -/
inductive Value where
  | Boolean (b : Bool) : Value
  | String (s : String) : Value
  | Number (q : Rat) : Value
deriving DecidableEq

/-- An entity instance (`Entity` from `src/level.rs`).  Fields declared
`Option` in the source are `Option` here; serde omits them on serialize when
`None` (`skip_serializing_if = "Option::is_none"`) and decodes a missing or
null field to `None`. -/
structure Entity where
  name : String
  id : Int
  export_id : String
  x : Rat
  y : Rat
  width : Option Rat
  height : Option Rat
  origin_x : Option Rat
  origin_y : Option Rat
  rotation : Option Rat
  flipped_x : Option Bool
  flipped_y : Option Bool
  nodes : Option (List (Vec2 Rat))
  values : Option (List (String × Value))
deriving DecidableEq

/-- A decal instance (`Decal` from `src/level.rs`).  Note that `values` is
not an `Option` and carries no `#[serde(default)]` attribute in the source:
it is a required field. -/
structure Decal where
  x : Rat
  y : Rat
  scale_x : Option Rat
  scale_y : Option Rat
  rotation : Option Rat
  texture : String
  values : List (String × Value)
deriving DecidableEq

/-- Tile data from a `TileLayer` (`TileLayerStorage` from `src/level.rs`). -/
inductive TileLayerStorage where
  | Data (data : List Int) : TileLayerStorage
  | Data2D (data : List (List Int)) : TileLayerStorage
deriving DecidableEq

/-- A tile layer (`TileLayer` from `src/level.rs`). -/
structure TileLayer where
  name : String
  export_id : String
  offset_x : Rat
  offset_y : Rat
  grid_cell_width : Int
  grid_cell_height : Int
  grid_cells_x : Int
  grid_cells_y : Int
  tileset : String
  data : TileLayerStorage
deriving DecidableEq

/-- An individual tile, unpacked from a `TileLayer` (`Tile` in the source). -/
structure Tile where
  id : Option Int
  grid_position : Vec2 Int
  pixel_position : Vec2 Int
deriving DecidableEq

/-- Tile data from a `TileCoordsLayer` (`TileCoordsLayerStorage`). -/
inductive TileCoordsLayerStorage where
  | DataCoords (data : List (List Int)) : TileCoordsLayerStorage
  | DataCoords2D (data : List (List (List Int))) : TileCoordsLayerStorage
deriving DecidableEq

/-- A tile co-ords layer (`TileCoordsLayer` from `src/level.rs`). -/
structure TileCoordsLayer where
  name : String
  export_id : String
  offset_x : Rat
  offset_y : Rat
  grid_cell_width : Int
  grid_cell_height : Int
  grid_cells_x : Int
  grid_cells_y : Int
  tileset : String
  data : TileCoordsLayerStorage
deriving DecidableEq

/-- An individual tile, unpacked from a `TileCoordsLayer` (`TileCoords`). -/
structure TileCoords where
  grid_coords : Option (Vec2 Int)
  pixel_coords : Option (Vec2 Int)
  grid_position : Vec2 Int
  pixel_position : Vec2 Int
deriving DecidableEq

/-- Grid data from a `GridLayer` (`GridLayerStorage` from `src/level.rs`). -/
inductive GridLayerStorage where
  | Grid (data : List String) : GridLayerStorage
  | Grid2D (data : List (List String)) : GridLayerStorage
deriving DecidableEq

/-- A grid layer (`GridLayer` from `src/level.rs`). -/
structure GridLayer where
  name : String
  export_id : String
  offset_x : Rat
  offset_y : Rat
  grid_cell_width : Int
  grid_cell_height : Int
  grid_cells_x : Int
  grid_cells_y : Int
  data : GridLayerStorage
deriving DecidableEq

/-- An individual grid cell, unpacked from a `GridLayer` (`GridCell`; the
borrowed `&str` value is modelled as an owned `String`). -/
structure GridCell where
  value : String
  grid_position : Vec2 Int
  pixel_position : Vec2 Int
deriving DecidableEq

/-- An entity layer (`EntityLayer` from `src/level.rs`). -/
structure EntityLayer where
  name : String
  export_id : String
  offset_x : Rat
  offset_y : Rat
  grid_cell_width : Int
  grid_cell_height : Int
  grid_cells_x : Int
  grid_cells_y : Int
  entities : List Entity
deriving DecidableEq

/-- A decal layer (`DecalLayer` from `src/level.rs`; `folder : PathBuf` is a
string). -/
structure DecalLayer where
  name : String
  export_id : String
  offset_x : Rat
  offset_y : Rat
  grid_cell_width : Int
  grid_cell_height : Int
  grid_cells_x : Int
  grid_cells_y : Int
  decals : List Decal
  folder : String
deriving DecidableEq

/-- A layer instance (`Layer` from `src/level.rs`), serde-untagged: variants
are tried in declaration order on deserialize. -/
inductive Layer where
  | Tile (layer : TileLayer) : Layer
  | TileCoords (layer : TileCoordsLayer) : Layer
  | Grid (layer : GridLayer) : Layer
  | Entity (layer : EntityLayer) : Layer
  | Decal (layer : DecalLayer) : Layer
deriving DecidableEq

/-- An Ogmo level (`Level` from `src/level.rs`).  `values` carries
`#[serde(default)]`: a missing field decodes to the empty mapping. -/
structure Level where
  ogmo_version : String
  width : Rat
  height : Rat
  offset_x : Rat
  offset_y : Rat
  values : List (String × Value)
  layers : List Layer
deriving DecidableEq

/-- A boolean value template (`BooleanValueTemplate` from `src/project.rs`). -/
structure BooleanValueTemplate where
  name : String
  defaults : Bool
deriving DecidableEq

/-- A color value template (`ColorValueTemplate`). -/
structure ColorValueTemplate where
  name : String
  defaults : String
  include_alpha : Bool
deriving DecidableEq

/-- An enum value template (`EnumValueTemplate`). -/
structure EnumValueTemplate where
  name : String
  defaults : Int
  choices : List String
deriving DecidableEq

/-- An integer value template (`IntegerValueTemplate`). -/
structure IntegerValueTemplate where
  name : String
  defaults : Int
  bounded : Bool
  min : Int
  max : Int
deriving DecidableEq

/-- A float value template (`FloatValueTemplate`). -/
structure FloatValueTemplate where
  name : String
  defaults : Rat
  bounded : Bool
  min : Rat
  max : Rat
deriving DecidableEq

/-- A string value template (`StringValueTemplate`). -/
structure StringValueTemplate where
  name : String
  defaults : String
  max_length : Int
  trim_whitespace : Bool
deriving DecidableEq

/-- A text value template (`TextValueTemplate`). -/
structure TextValueTemplate where
  name : String
  defaults : String
deriving DecidableEq

/-- A template for a value (`ValueTemplate` from `src/project.rs`),
internally tagged by the `definition` field whose value is the variant
name (`Boolean`, `Color`, ...). -/
inductive ValueTemplate where
  | Boolean (t : BooleanValueTemplate) : ValueTemplate
  | Color (t : ColorValueTemplate) : ValueTemplate
  | Enum (t : EnumValueTemplate) : ValueTemplate
  | Integer (t : IntegerValueTemplate) : ValueTemplate
  | Float (t : FloatValueTemplate) : ValueTemplate
  | String (t : StringValueTemplate) : ValueTemplate
  | Text (t : TextValueTemplate) : ValueTemplate
deriving DecidableEq

/-- Whether tile data is stored as IDs or co-ords (`ExportMode`,
`serde_repr` over `u8`: `Ids = 0`, `Coords = 1`). -/
inductive ExportMode where
  | Ids : ExportMode
  | Coords : ExportMode
deriving DecidableEq

/-- Whether tile data is stored as a 1D or 2D array (`ArrayMode`,
`serde_repr` over `u8`: `One = 0`, `Two = 1`). -/
inductive ArrayMode where
  | One : ArrayMode
  | Two : ArrayMode
deriving DecidableEq

/-- A tile layer template (`TileLayerTemplate`), internally tagged with
`definition = "tile"`. -/
structure TileLayerTemplate where
  name : String
  grid_size : Vec2 Int
  export_id : String
  export_mode : ExportMode
  array_mode : ArrayMode
  default_tileset : String
deriving DecidableEq

/-- A grid layer template (`GridLayerTemplate`), tagged `definition = "grid"`. -/
structure GridLayerTemplate where
  name : String
  grid_size : Vec2 Int
  export_id : String
  array_mode : ArrayMode
  legend : List (String × String)
deriving DecidableEq

/-- An entity layer template (`EntityLayerTemplate`), tagged
`definition = "entity"`. -/
structure EntityLayerTemplate where
  name : String
  grid_size : Vec2 Int
  export_id : String
  required_tags : List String
  excluded_tags : List String
deriving DecidableEq

/-- A decal layer template (`DecalLayerTemplate`), tagged
`definition = "decal"`. -/
structure DecalLayerTemplate where
  name : String
  grid_size : Vec2 Int
  export_id : String
  folder : String
  include_image_sequence : Bool
  scaleable : Bool
  rotatable : Bool
  values : List ValueTemplate
deriving DecidableEq

/-- A template for a layer (`LayerTemplate` from `src/project.rs`),
serde-untagged: variants tried in declaration order, each requiring its own
`definition` tag value. -/
inductive LayerTemplate where
  | Tile (t : TileLayerTemplate) : LayerTemplate
  | Grid (t : GridLayerTemplate) : LayerTemplate
  | Entity (t : EntityLayerTemplate) : LayerTemplate
  | Decal (t : DecalLayerTemplate) : LayerTemplate
deriving DecidableEq

/-- An entity's shape (`Shape` from `src/project.rs`). -/
structure Shape where
  label : String
  points : List (Vec2 Rat)
deriving DecidableEq

/-- A template for an entity (`EntityTemplate` from `src/project.rs`). -/
structure EntityTemplate where
  name : String
  export_id : String
  limit : Int
  size : Vec2 Rat
  origin : Vec2 Rat
  origin_anchored : Bool
  shape : Shape
  color : String
  tile_x : Bool
  tile_y : Bool
  tile_size : Vec2 Rat
  resizeable_x : Bool
  resizeable_y : Bool
  rotatable : Bool
  rotation_degrees : Rat
  can_flip_x : Bool
  can_flip_y : Bool
  can_set_color : Bool
  has_nodes : Bool
  node_limit : Int
  node_display : Int
  node_ghost : Bool
  tags : List String
  values : List ValueTemplate
  texture : Option String
  texture_image : Option String
deriving DecidableEq

/-- A tileset (`Tileset` from `src/project.rs`). -/
structure Tileset where
  label : String
  path : String
  image : String
  tile_width : Int
  tile_height : Int
  tile_separation_x : Int
  tile_separation_y : Int
deriving DecidableEq

/-- An Ogmo project (`Project` from `src/project.rs`). -/
structure Project where
  name : String
  ogmo_version : String
  level_paths : List String
  background_color : String
  grid_color : String
  angles_radians : Bool
  directory_depth : Int
  layer_grid_default_size : Vec2 Int
  level_default_size : Vec2 Int
  level_min_size : Vec2 Int
  level_max_size : Vec2 Int
  level_values : List ValueTemplate
  default_export_mode : String
  compact_export : Bool
  entity_tags : List String
  layers : List LayerTemplate
  entities : List EntityTemplate
  tilesets : List Tileset
deriving DecidableEq

/-! ## The tile/grid decoder (`unpack`) and tileset slicing

Each Rust `unpack` returns a lazy iterator; the embedding is the list of
items the fully-consumed iterator yields.  The flat (1D) paths compute
`i as i32 % grid_cells_x` and `i as i32 / grid_cells_x`; Rust `%` and `/`
on `i32` truncate toward zero and panic when the divisor is zero, so they
are embedded as `Int.tmod` / `Int.tdiv` behind a zero-divisor guard.
Indexing `coords[0]` / `coords[1]` panics out of bounds and is embedded as
`Option`-valued access. -/

/-- `TileLayer::unpack` (src/level.rs lines 274-327). -/
def TileLayer.unpack (l : TileLayer) : Option (List Tile) :=
  match l.data with
  | .Data data =>
      mapMo data.enum fun p =>
        if l.grid_cells_x = 0 then none
        else
          let grid_x := (p.1 : Int).tmod l.grid_cells_x
          let grid_y := (p.1 : Int).tdiv l.grid_cells_x
          let pixel_x := grid_x * l.grid_cell_width
          let pixel_y := grid_y * l.grid_cell_height
          some { id := if p.2 = -1 then none else some p.2,
                 grid_position := ⟨grid_x, grid_y⟩,
                 pixel_position := ⟨pixel_x, pixel_y⟩ }
  | .Data2D data =>
      some (data.enum.map (fun py =>
        py.2.enum.map fun px =>
          let grid_x : Int := px.1
          let grid_y : Int := py.1
          let pixel_x := grid_x * l.grid_cell_width
          let pixel_y := grid_y * l.grid_cell_height
          { id := if px.2 = -1 then none else some px.2,
            grid_position := (⟨grid_x, grid_y⟩ : Vec2 Int),
            pixel_position := (⟨pixel_x, pixel_y⟩ : Vec2 Int) })).flatten

/-- The per-entry co-ordinate decoding an Ogmo tile-coords layer performs
(inlined twice in `TileCoordsLayer::unpack`, src/level.rs lines 441-460 and
486-505): read `coords[0]`; when it is `-1` both co-ordinate pairs are
absent; otherwise read `coords[1]` and multiply by the cell dimensions. -/
def tileCoordsEntry (gcw gch : Int) (coords : List Int) :
    Option (Option (Vec2 Int) × Option (Vec2 Int)) :=
  match coords.head? with
  | none => none
  | some c0 =>
      if c0 = -1 then some (none, none)
      else
        match coords.get? 1 with
        | none => none
        | some c1 => some (some ⟨c0, c1⟩, some ⟨c0 * gcw, c1 * gch⟩)

/-- `TileCoordsLayer::unpack` (src/level.rs lines 429-524). -/
def TileCoordsLayer.unpack (l : TileCoordsLayer) : Option (List TileCoords) :=
  match l.data with
  | .DataCoords data =>
      mapMo data.enum fun p =>
        if l.grid_cells_x = 0 then none
        else
          let grid_x := (p.1 : Int).tmod l.grid_cells_x
          let grid_y := (p.1 : Int).tdiv l.grid_cells_x
          let pixel_x := grid_x * l.grid_cell_width
          let pixel_y := grid_y * l.grid_cell_height
          (tileCoordsEntry l.grid_cell_width l.grid_cell_height p.2).map fun c =>
            { grid_coords := c.1, pixel_coords := c.2,
              grid_position := ⟨grid_x, grid_y⟩,
              pixel_position := ⟨pixel_x, pixel_y⟩ }
  | .DataCoords2D data =>
      (mapMo data.enum fun (py : Nat × List (List Int)) =>
        mapMo py.2.enum fun px =>
          let grid_x : Int := px.1
          let grid_y : Int := py.1
          let pixel_x := grid_x * l.grid_cell_width
          let pixel_y := grid_y * l.grid_cell_height
          (tileCoordsEntry l.grid_cell_width l.grid_cell_height px.2).map fun c =>
            { grid_coords := c.1, pixel_coords := c.2,
              grid_position := (⟨grid_x, grid_y⟩ : Vec2 Int),
              pixel_position := (⟨pixel_x, pixel_y⟩ : Vec2 Int) }).map List.flatten

/-- `GridLayer::unpack` (src/level.rs lines 683-734). -/
def GridLayer.unpack (l : GridLayer) : Option (List GridCell) :=
  match l.data with
  | .Grid data =>
      mapMo data.enum fun p =>
        if l.grid_cells_x = 0 then none
        else
          let grid_x := (p.1 : Int).tmod l.grid_cells_x
          let grid_y := (p.1 : Int).tdiv l.grid_cells_x
          let pixel_x := grid_x * l.grid_cell_width
          let pixel_y := grid_y * l.grid_cell_height
          some { value := p.2,
                 grid_position := ⟨grid_x, grid_y⟩,
                 pixel_position := ⟨pixel_x, pixel_y⟩ }
  | .Grid2D data =>
      some (data.enum.map (fun py =>
        py.2.enum.map fun px =>
          let grid_x : Int := px.1
          let grid_y : Int := py.1
          let pixel_x := grid_x * l.grid_cell_width
          let pixel_y := grid_y * l.grid_cell_height
          { value := px.2,
            grid_position := (⟨grid_x, grid_y⟩ : Vec2 Int),
            pixel_position := (⟨pixel_x, pixel_y⟩ : Vec2 Int) })).flatten

/-- `Tileset::tile_coords` (src/project.rs lines 533-558): Rust `i32`
division truncates toward zero and panics on a zero step, hence the guard;
the `0..n` ranges are empty when `n ≤ 0`. -/
def Tileset.tile_coords (t : Tileset) (texture_width texture_height : Int) :
    Option (List (Vec2 Int)) :=
  let step_x := t.tile_width + t.tile_separation_x
  let step_y := t.tile_height + t.tile_separation_y
  if step_x = 0 ∨ step_y = 0 then none
  else
    let tiles_x := texture_width.tdiv step_x
    let tiles_y := texture_height.tdiv step_y
    some ((List.range tiles_y.toNat).map (fun (tile_y : Nat) =>
      (List.range tiles_x.toNat).map fun (tile_x : Nat) =>
        (⟨(tile_x : Int) * step_x, (tile_y : Int) * step_y⟩ : Vec2 Int))).flatten

/-- The flat row-major list of raw tile IDs held by a tile layer's storage
(the 2D shape flattened in row order). -/
def TileLayer.rawData (l : TileLayer) : List Int :=
  match l.data with
  | .Data d => d
  | .Data2D d => d.flatten

/-- The flat row-major list of raw co-ordinate entries held by a tile-coords
layer's storage. -/
def TileCoordsLayer.rawEntries (l : TileCoordsLayer) : List (List Int) :=
  match l.data with
  | .DataCoords d => d
  | .DataCoords2D d => d.flatten

/-- A raw co-ordinate entry the decoder can process without an out-of-bounds
access: its first element is the `-1` sentinel, or it has at least two
elements. -/
def coordsEntryOk (coords : List Int) : Prop :=
  coords.head? = some (-1) ∨ 2 ≤ coords.length

instance (coords : List Int) : Decidable (coordsEntryOk coords) := by
  unfold coordsEntryOk
  infer_instance

/-- The spec's description of per-entry tile-coords decoding (§4.2 of the
spec, and claim C5): a first co-ordinate of `-1` decodes to absent
grid-coords and pixel-coords, otherwise the entry `[u, v, ...]` decodes to
grid-coords `(u, v)` and pixel-coords `(u × cellWidth, v × cellHeight)`.
Stated with defaulting accessors; it is compared with `tileCoordsEntry`
on entries satisfying `coordsEntryOk`. -/
def coordsEntrySpec (gcw gch : Int) (coords : List Int) :
    Option (Vec2 Int) × Option (Vec2 Int) :=
  if coords.head? = some (-1) then (none, none)
  else
    (some ⟨coords.headD 0, coords.getD 1 0⟩,
     some ⟨coords.headD 0 * gcw, coords.getD 1 0 * gch⟩)

/-! ## Scalar (de)serialization primitives

These embed how the serde data model maps the primitive Rust field types
to and from generic JSON values: `f32` accepts any JSON number, `i32`
accepts only integral numbers within the signed 32-bit range, `bool` and
`String`/`PathBuf` accept exactly their JSON counterparts, `Vec<T>` is a
JSON array, and `HashMap<String, V>` is a JSON object. -/

/-- A mathematical integer within the signed 32-bit range. -/
def i32Bounds (n : Int) : Prop :=
  -2147483648 ≤ n ∧ n < 2147483648

instance (n : Int) : Decidable (i32Bounds n) := by
  unfold i32Bounds
  infer_instance

/-- Deserialize a Rust `f32` field: any JSON number. -/
def decF32 : Json → Option Rat
  | .num q => some q
  | _ => none

/-- Deserialize a Rust `i32` field: an integral JSON number in range. -/
def decI32 : Json → Option Int
  | .num q => if q.den = 1 ∧ i32Bounds q.num then some q.num else none
  | _ => none

/-- Deserialize a Rust `bool` field. -/
def decBool : Json → Option Bool
  | .bool b => some b
  | _ => none

/-- Deserialize a Rust `String` (or `PathBuf`) field. -/
def decStr : Json → Option String
  | .str s => some s
  | _ => none

/-- Deserialize a Rust `Vec<T>` field from a JSON array. -/
def decList (f : Json → Option α) : Json → Option (List α)
  | .arr es => mapMo es f
  | _ => none

/-- Deserialize a Rust `HashMap<String, V>` field from a JSON object. -/
def decMap (f : Json → Option α) : Json → Option (List (String × α))
  | .obj fs => mapMo fs fun kv => (f kv.2).map fun v => (kv.1, v)
  | _ => none

/-- A required struct field: missing or undecodable fails the decode. -/
def reqField (fs : List (String × Json)) (name : String)
    (f : Json → Option α) : Option α :=
  (getField fs name).bind f

/-- Decode an `Option<T>` field from the result of looking the field up:
a missing field or an explicit `null` decodes to `none`; any other value
must decode with `f`. -/
def decOpt (f : Json → Option α) : Option Json → Option (Option α)
  | none => some none
  | some .null => some none
  | some j => (f j).map some

/-- An `Option<T>` struct field (serde decodes a missing or null field to
`None`). -/
def optJField (fs : List (String × Json)) (name : String)
    (f : Json → Option α) : Option (Option α) :=
  decOpt f (getField fs name)

def encI32 (n : Int) : Json := .num (n : Rat)

def encList (f : α → Json) (l : List α) : Json := .arr (l.map f)

def encMap (f : α → Json) (m : List (String × α)) : Json :=
  .obj (m.map fun kv => (kv.1, f kv.2))

/-- Serialize an `Option` field under `skip_serializing_if = "Option::is_none"`:
`none` contributes no field at all. -/
def optField (name : String) (f : α → Json) : Option α → List (String × Json)
  | none => []
  | some v => [(name, f v)]

/-! ## Level-document (de)serialization (`src/level.rs`)

Field names reflect `rename_all = "camelCase"` and the `_eid` rename.
Serde ignores unknown object fields (no `deny_unknown_fields` anywhere in
the crate), and the derived deserializers here read only the fields they
know.  The flattened storage enums are located by scanning the object for
the first field named like one of their variants, which is what serde's
flat-map deserializer does (no struct field of the containing layer shares
a name with a storage variant, so scanning the whole object is
equivalent to scanning the leftover fields). -/

/-- Deserialize the untagged `Value`: JSON shape alone decides the variant. -/
def Value.deserialize : Json → Option Value
  | .bool b => some (.Boolean b)
  | .str s => some (.String s)
  | .num q => some (.Number q)
  | _ => none

def Value.serialize : Value → Json
  | .Boolean b => .bool b
  | .String s => .str s
  | .Number q => .num q

/-- Deserialize a `Vec2<T>` from a JSON object with `x` and `y` fields. -/
def decVec2 (f : Json → Option α) (j : Json) : Option (Vec2 α) := do
  let fs ← j.asObj
  let x ← reqField fs "x" f
  let y ← reqField fs "y" f
  pure ⟨x, y⟩

def encVec2 (f : α → Json) (v : Vec2 α) : Json :=
  .obj [("x", f v.x), ("y", f v.y)]

def Entity.deserializeFields (fs : List (String × Json)) : Option Entity := do
  let name ← reqField fs "name" decStr
  let id ← reqField fs "id" decI32
  let export_id ← reqField fs "_eid" decStr
  let x ← reqField fs "x" decF32
  let y ← reqField fs "y" decF32
  let width ← optJField fs "width" decF32
  let height ← optJField fs "height" decF32
  let origin_x ← optJField fs "originX" decF32
  let origin_y ← optJField fs "originY" decF32
  let rotation ← optJField fs "rotation" decF32
  let flipped_x ← optJField fs "flippedX" decBool
  let flipped_y ← optJField fs "flippedY" decBool
  let nodes ← optJField fs "nodes" (decList (decVec2 decF32))
  let values ← optJField fs "values" (decMap Value.deserialize)
  pure { name, id, export_id, x, y, width, height, origin_x, origin_y,
         rotation, flipped_x, flipped_y, nodes, values }


def Entity.deserialize (j : Json) : Option Entity :=
  j.asObj.bind Entity.deserializeFields

def Entity.serialize (e : Entity) : Json :=
  .obj ([("name", .str e.name), ("id", encI32 e.id), ("_eid", .str e.export_id),
         ("x", .num e.x), ("y", .num e.y)]
    ++ optField "width" Json.num e.width
    ++ optField "height" Json.num e.height
    ++ optField "originX" Json.num e.origin_x
    ++ optField "originY" Json.num e.origin_y
    ++ optField "rotation" Json.num e.rotation
    ++ optField "flippedX" Json.bool e.flipped_x
    ++ optField "flippedY" Json.bool e.flipped_y
    ++ optField "nodes" (encList (encVec2 Json.num)) e.nodes
    ++ optField "values" (encMap Value.serialize) e.values)

def Decal.deserializeFields (fs : List (String × Json)) : Option Decal := do
  let x ← reqField fs "x" decF32
  let y ← reqField fs "y" decF32
  let scale_x ← optJField fs "scaleX" decF32
  let scale_y ← optJField fs "scaleY" decF32
  let rotation ← optJField fs "rotation" decF32
  let texture ← reqField fs "texture" decStr
  let values ← reqField fs "values" (decMap Value.deserialize)
  pure { x, y, scale_x, scale_y, rotation, texture, values }


def Decal.deserialize (j : Json) : Option Decal :=
  j.asObj.bind Decal.deserializeFields

def Decal.serialize (d : Decal) : Json :=
  .obj ([("x", .num d.x), ("y", .num d.y)]
    ++ optField "scaleX" Json.num d.scale_x
    ++ optField "scaleY" Json.num d.scale_y
    ++ optField "rotation" Json.num d.rotation
    ++ [("texture", .str d.texture),
        ("values", encMap Value.serialize d.values)])

/-- The custom `Serialize` impl for `TileLayerStorage` (src/level.rs lines
366-388): the payload under its shape-specific name, then the two derived
mode flags. -/
def TileLayerStorage.serialize : TileLayerStorage → List (String × Json)
  | .Data d =>
      [("data", encList encI32 d), ("exportMode", .num 0), ("arrayMode", .num 0)]
  | .Data2D d =>
      [("data2D", encList (encList encI32) d),
       ("exportMode", .num 0), ("arrayMode", .num 1)]

/-- The derived (externally tagged, flattened) deserializer for
`TileLayerStorage`: the first field named `data` or `data2D` selects the
variant; the mode-flag fields are not consulted. -/
def TileLayerStorage.deserialize (fs : List (String × Json)) :
    Option TileLayerStorage :=
  match findField fs ["data", "data2D"] with
  | some ("data", j) => (decList decI32 j).map .Data
  | some ("data2D", j) => (decList (decList decI32) j).map .Data2D
  | _ => none

/-- The custom `Serialize` impl for `TileCoordsLayerStorage` (src/level.rs
lines 570-592). -/
def TileCoordsLayerStorage.serialize : TileCoordsLayerStorage → List (String × Json)
  | .DataCoords d =>
      [("dataCoords", encList (encList encI32) d),
       ("exportMode", .num 1), ("arrayMode", .num 0)]
  | .DataCoords2D d =>
      [("dataCoords2D", encList (encList (encList encI32)) d),
       ("exportMode", .num 1), ("arrayMode", .num 1)]

def TileCoordsLayerStorage.deserialize (fs : List (String × Json)) :
    Option TileCoordsLayerStorage :=
  match findField fs ["dataCoords", "dataCoords2D"] with
  | some ("dataCoords", j) => (decList (decList decI32) j).map .DataCoords
  | some ("dataCoords2D", j) => (decList (decList (decList decI32)) j).map .DataCoords2D
  | _ => none

/-- The custom `Serialize` impl for `GridLayerStorage` (src/level.rs lines
646-666): grid storage emits only `arrayMode`, no `exportMode`. -/
def GridLayerStorage.serialize : GridLayerStorage → List (String × Json)
  | .Grid d => [("grid", encList Json.str d), ("arrayMode", .num 0)]
  | .Grid2D d => [("grid2D", encList (encList Json.str) d), ("arrayMode", .num 1)]

def GridLayerStorage.deserialize (fs : List (String × Json)) :
    Option GridLayerStorage :=
  match findField fs ["grid", "grid2D"] with
  | some ("grid", j) => (decList decStr j).map .Grid
  | some ("grid2D", j) => (decList (decList decStr) j).map .Grid2D
  | _ => none

def TileLayer.deserializeFields (fs : List (String × Json)) : Option TileLayer := do
  let name ← reqField fs "name" decStr
  let export_id ← reqField fs "_eid" decStr
  let offset_x ← reqField fs "offsetX" decF32
  let offset_y ← reqField fs "offsetY" decF32
  let grid_cell_width ← reqField fs "gridCellWidth" decI32
  let grid_cell_height ← reqField fs "gridCellHeight" decI32
  let grid_cells_x ← reqField fs "gridCellsX" decI32
  let grid_cells_y ← reqField fs "gridCellsY" decI32
  let tileset ← reqField fs "tileset" decStr
  let data ← TileLayerStorage.deserialize fs
  pure { name, export_id, offset_x, offset_y, grid_cell_width,
         grid_cell_height, grid_cells_x, grid_cells_y, tileset, data }


def TileLayer.deserialize (j : Json) : Option TileLayer :=
  j.asObj.bind TileLayer.deserializeFields

def TileLayer.serialize (l : TileLayer) : Json :=
  .obj ([("name", .str l.name), ("_eid", .str l.export_id),
         ("offsetX", .num l.offset_x), ("offsetY", .num l.offset_y),
         ("gridCellWidth", encI32 l.grid_cell_width),
         ("gridCellHeight", encI32 l.grid_cell_height),
         ("gridCellsX", encI32 l.grid_cells_x),
         ("gridCellsY", encI32 l.grid_cells_y),
         ("tileset", .str l.tileset)] ++ l.data.serialize)

def TileCoordsLayer.deserializeFields (fs : List (String × Json)) : Option TileCoordsLayer := do
  let name ← reqField fs "name" decStr
  let export_id ← reqField fs "_eid" decStr
  let offset_x ← reqField fs "offsetX" decF32
  let offset_y ← reqField fs "offsetY" decF32
  let grid_cell_width ← reqField fs "gridCellWidth" decI32
  let grid_cell_height ← reqField fs "gridCellHeight" decI32
  let grid_cells_x ← reqField fs "gridCellsX" decI32
  let grid_cells_y ← reqField fs "gridCellsY" decI32
  let tileset ← reqField fs "tileset" decStr
  let data ← TileCoordsLayerStorage.deserialize fs
  pure { name, export_id, offset_x, offset_y, grid_cell_width,
         grid_cell_height, grid_cells_x, grid_cells_y, tileset, data }


def TileCoordsLayer.deserialize (j : Json) : Option TileCoordsLayer :=
  j.asObj.bind TileCoordsLayer.deserializeFields

def TileCoordsLayer.serialize (l : TileCoordsLayer) : Json :=
  .obj ([("name", .str l.name), ("_eid", .str l.export_id),
         ("offsetX", .num l.offset_x), ("offsetY", .num l.offset_y),
         ("gridCellWidth", encI32 l.grid_cell_width),
         ("gridCellHeight", encI32 l.grid_cell_height),
         ("gridCellsX", encI32 l.grid_cells_x),
         ("gridCellsY", encI32 l.grid_cells_y),
         ("tileset", .str l.tileset)] ++ l.data.serialize)

def GridLayer.deserializeFields (fs : List (String × Json)) : Option GridLayer := do
  let name ← reqField fs "name" decStr
  let export_id ← reqField fs "_eid" decStr
  let offset_x ← reqField fs "offsetX" decF32
  let offset_y ← reqField fs "offsetY" decF32
  let grid_cell_width ← reqField fs "gridCellWidth" decI32
  let grid_cell_height ← reqField fs "gridCellHeight" decI32
  let grid_cells_x ← reqField fs "gridCellsX" decI32
  let grid_cells_y ← reqField fs "gridCellsY" decI32
  let data ← GridLayerStorage.deserialize fs
  pure { name, export_id, offset_x, offset_y, grid_cell_width,
         grid_cell_height, grid_cells_x, grid_cells_y, data }


def GridLayer.deserialize (j : Json) : Option GridLayer :=
  j.asObj.bind GridLayer.deserializeFields

def GridLayer.serialize (l : GridLayer) : Json :=
  .obj ([("name", .str l.name), ("_eid", .str l.export_id),
         ("offsetX", .num l.offset_x), ("offsetY", .num l.offset_y),
         ("gridCellWidth", encI32 l.grid_cell_width),
         ("gridCellHeight", encI32 l.grid_cell_height),
         ("gridCellsX", encI32 l.grid_cells_x),
         ("gridCellsY", encI32 l.grid_cells_y)] ++ l.data.serialize)

def EntityLayer.deserializeFields (fs : List (String × Json)) : Option EntityLayer := do
  let name ← reqField fs "name" decStr
  let export_id ← reqField fs "_eid" decStr
  let offset_x ← reqField fs "offsetX" decF32
  let offset_y ← reqField fs "offsetY" decF32
  let grid_cell_width ← reqField fs "gridCellWidth" decI32
  let grid_cell_height ← reqField fs "gridCellHeight" decI32
  let grid_cells_x ← reqField fs "gridCellsX" decI32
  let grid_cells_y ← reqField fs "gridCellsY" decI32
  let entities ← reqField fs "entities" (decList Entity.deserialize)
  pure { name, export_id, offset_x, offset_y, grid_cell_width,
         grid_cell_height, grid_cells_x, grid_cells_y, entities }


def EntityLayer.deserialize (j : Json) : Option EntityLayer :=
  j.asObj.bind EntityLayer.deserializeFields

def EntityLayer.serialize (l : EntityLayer) : Json :=
  .obj [("name", .str l.name), ("_eid", .str l.export_id),
        ("offsetX", .num l.offset_x), ("offsetY", .num l.offset_y),
        ("gridCellWidth", encI32 l.grid_cell_width),
        ("gridCellHeight", encI32 l.grid_cell_height),
        ("gridCellsX", encI32 l.grid_cells_x),
        ("gridCellsY", encI32 l.grid_cells_y),
        ("entities", encList Entity.serialize l.entities)]

def DecalLayer.deserializeFields (fs : List (String × Json)) : Option DecalLayer := do
  let name ← reqField fs "name" decStr
  let export_id ← reqField fs "_eid" decStr
  let offset_x ← reqField fs "offsetX" decF32
  let offset_y ← reqField fs "offsetY" decF32
  let grid_cell_width ← reqField fs "gridCellWidth" decI32
  let grid_cell_height ← reqField fs "gridCellHeight" decI32
  let grid_cells_x ← reqField fs "gridCellsX" decI32
  let grid_cells_y ← reqField fs "gridCellsY" decI32
  let decals ← reqField fs "decals" (decList Decal.deserialize)
  let folder ← reqField fs "folder" decStr
  pure { name, export_id, offset_x, offset_y, grid_cell_width,
         grid_cell_height, grid_cells_x, grid_cells_y, decals, folder }


def DecalLayer.deserialize (j : Json) : Option DecalLayer :=
  j.asObj.bind DecalLayer.deserializeFields

def DecalLayer.serialize (l : DecalLayer) : Json :=
  .obj [("name", .str l.name), ("_eid", .str l.export_id),
        ("offsetX", .num l.offset_x), ("offsetY", .num l.offset_y),
        ("gridCellWidth", encI32 l.grid_cell_width),
        ("gridCellHeight", encI32 l.grid_cell_height),
        ("gridCellsX", encI32 l.grid_cells_x),
        ("gridCellsY", encI32 l.grid_cells_y),
        ("decals", encList Decal.serialize l.decals),
        ("folder", .str l.folder)]

/-- The untagged `Layer` deserializer: variants are tried in declaration
order (Tile, TileCoords, Grid, Entity, Decal) and the first structural
match is committed to. -/
def Layer.deserialize (j : Json) : Option Layer :=
  ((TileLayer.deserialize j).map Layer.Tile) <|>
  ((TileCoordsLayer.deserialize j).map Layer.TileCoords) <|>
  ((GridLayer.deserialize j).map Layer.Grid) <|>
  ((EntityLayer.deserialize j).map Layer.Entity) <|>
  ((DecalLayer.deserialize j).map Layer.Decal)

def Layer.serialize : Layer → Json
  | .Tile l => l.serialize
  | .TileCoords l => l.serialize
  | .Grid l => l.serialize
  | .Entity l => l.serialize
  | .Decal l => l.serialize

/-- `Level::from_json`, at the generic JSON value-tree level (the text
parser is the external JSON layer).  `values` carries `#[serde(default)]`:
a missing field becomes the empty mapping. -/
def Level.deserializeFields (fs : List (String × Json)) : Option Level := do
  let ogmo_version ← reqField fs "ogmoVersion" decStr
  let width ← reqField fs "width" decF32
  let height ← reqField fs "height" decF32
  let offset_x ← reqField fs "offsetX" decF32
  let offset_y ← reqField fs "offsetY" decF32
  let values ←
    match getField fs "values" with
    | none => some []
    | some jv => decMap Value.deserialize jv
  let layers ← reqField fs "layers" (decList Layer.deserialize)
  pure { ogmo_version, width, height, offset_x, offset_y, values, layers }

/-- `Level::from_json`, at the generic JSON value-tree level (the text
parser is the external JSON layer). -/
def Level.from_json (j : Json) : Option Level :=
  j.asObj.bind Level.deserializeFields

/-- `Level::to_json`, at the generic JSON value-tree level: the emitted
value tree (text rendering is the external JSON layer). -/
def Level.to_json (l : Level) : Json :=
  .obj [("ogmoVersion", .str l.ogmo_version), ("width", .num l.width),
        ("height", .num l.height), ("offsetX", .num l.offset_x),
        ("offsetY", .num l.offset_y),
        ("values", encMap Value.serialize l.values),
        ("layers", encList Layer.serialize l.layers)]

/-! ## Project-document (de)serialization (`src/project.rs`) -/

/-- `serde_repr` deserializer for `ExportMode` (`Ids = 0`, `Coords = 1`). -/
def ExportMode.deserialize : Json → Option ExportMode
  | .num q => if q = 0 then some .Ids else if q = 1 then some .Coords else none
  | _ => none

def ExportMode.serialize : ExportMode → Json
  | .Ids => .num 0
  | .Coords => .num 1

/-- `serde_repr` deserializer for `ArrayMode` (`One = 0`, `Two = 1`). -/
def ArrayMode.deserialize : Json → Option ArrayMode
  | .num q => if q = 0 then some .One else if q = 1 then some .Two else none
  | _ => none

def ArrayMode.serialize : ArrayMode → Json
  | .One => .num 0
  | .Two => .num 1

def BooleanValueTemplate.deserialize (fs : List (String × Json)) :
    Option BooleanValueTemplate := do
  let name ← reqField fs "name" decStr
  let defaults ← reqField fs "defaults" decBool
  pure { name, defaults }

def BooleanValueTemplate.serializeFields (t : BooleanValueTemplate) :
    List (String × Json) :=
  [("name", .str t.name), ("defaults", .bool t.defaults)]

def ColorValueTemplate.deserialize (fs : List (String × Json)) :
    Option ColorValueTemplate := do
  let name ← reqField fs "name" decStr
  let defaults ← reqField fs "defaults" decStr
  let include_alpha ← reqField fs "includeAlpha" decBool
  pure { name, defaults, include_alpha }

def ColorValueTemplate.serializeFields (t : ColorValueTemplate) :
    List (String × Json) :=
  [("name", .str t.name), ("defaults", .str t.defaults),
   ("includeAlpha", .bool t.include_alpha)]

def EnumValueTemplate.deserialize (fs : List (String × Json)) :
    Option EnumValueTemplate := do
  let name ← reqField fs "name" decStr
  let defaults ← reqField fs "defaults" decI32
  let choices ← reqField fs "choices" (decList decStr)
  pure { name, defaults, choices }

def EnumValueTemplate.serializeFields (t : EnumValueTemplate) :
    List (String × Json) :=
  [("name", .str t.name), ("defaults", encI32 t.defaults),
   ("choices", encList Json.str t.choices)]

def IntegerValueTemplate.deserialize (fs : List (String × Json)) :
    Option IntegerValueTemplate := do
  let name ← reqField fs "name" decStr
  let defaults ← reqField fs "defaults" decI32
  let bounded ← reqField fs "bounded" decBool
  let min ← reqField fs "min" decI32
  let max ← reqField fs "max" decI32
  pure { name, defaults, bounded, min, max }

def IntegerValueTemplate.serializeFields (t : IntegerValueTemplate) :
    List (String × Json) :=
  [("name", .str t.name), ("defaults", encI32 t.defaults),
   ("bounded", .bool t.bounded), ("min", encI32 t.min), ("max", encI32 t.max)]

def FloatValueTemplate.deserialize (fs : List (String × Json)) :
    Option FloatValueTemplate := do
  let name ← reqField fs "name" decStr
  let defaults ← reqField fs "defaults" decF32
  let bounded ← reqField fs "bounded" decBool
  let min ← reqField fs "min" decF32
  let max ← reqField fs "max" decF32
  pure { name, defaults, bounded, min, max }

def FloatValueTemplate.serializeFields (t : FloatValueTemplate) :
    List (String × Json) :=
  [("name", .str t.name), ("defaults", .num t.defaults),
   ("bounded", .bool t.bounded), ("min", .num t.min), ("max", .num t.max)]

def StringValueTemplate.deserialize (fs : List (String × Json)) :
    Option StringValueTemplate := do
  let name ← reqField fs "name" decStr
  let defaults ← reqField fs "defaults" decStr
  let max_length ← reqField fs "maxLength" decI32
  let trim_whitespace ← reqField fs "trimWhitespace" decBool
  pure { name, defaults, max_length, trim_whitespace }

def StringValueTemplate.serializeFields (t : StringValueTemplate) :
    List (String × Json) :=
  [("name", .str t.name), ("defaults", .str t.defaults),
   ("maxLength", encI32 t.max_length), ("trimWhitespace", .bool t.trim_whitespace)]

def TextValueTemplate.deserialize (fs : List (String × Json)) :
    Option TextValueTemplate := do
  let name ← reqField fs "name" decStr
  let defaults ← reqField fs "defaults" decStr
  pure { name, defaults }

def TextValueTemplate.serializeFields (t : TextValueTemplate) :
    List (String × Json) :=
  [("name", .str t.name), ("defaults", .str t.defaults)]

/-- The internally tagged `ValueTemplate` deserializer: the `definition`
field names the variant directly (no trial-and-error); an unknown tag
fails.  The variant struct is decoded from the same object. -/
def ValueTemplate.deserializeFields (fs : JObj) : Option ValueTemplate := do
  match getField fs "definition" with
  | some (.str tag) =>
      if tag = "Boolean" then (BooleanValueTemplate.deserialize fs).map .Boolean
      else if tag = "Color" then (ColorValueTemplate.deserialize fs).map .Color
      else if tag = "Enum" then (EnumValueTemplate.deserialize fs).map .Enum
      else if tag = "Integer" then (IntegerValueTemplate.deserialize fs).map .Integer
      else if tag = "Float" then (FloatValueTemplate.deserialize fs).map .Float
      else if tag = "String" then (StringValueTemplate.deserialize fs).map .String
      else if tag = "Text" then (TextValueTemplate.deserialize fs).map .Text
      else none
  | _ => none


def ValueTemplate.deserialize (j : Json) : Option ValueTemplate :=
  j.asObj.bind ValueTemplate.deserializeFields

def ValueTemplate.serialize : ValueTemplate → Json
  | .Boolean t => .obj (("definition", .str "Boolean") :: t.serializeFields)
  | .Color t => .obj (("definition", .str "Color") :: t.serializeFields)
  | .Enum t => .obj (("definition", .str "Enum") :: t.serializeFields)
  | .Integer t => .obj (("definition", .str "Integer") :: t.serializeFields)
  | .Float t => .obj (("definition", .str "Float") :: t.serializeFields)
  | .String t => .obj (("definition", .str "String") :: t.serializeFields)
  | .Text t => .obj (("definition", .str "Text") :: t.serializeFields)

/-- `TileLayerTemplate` (internally tagged, `definition = "tile"`). -/
def TileLayerTemplate.deserializeFields (fs : List (String × Json)) : Option TileLayerTemplate := do
  match getField fs "definition" with
  | some (.str tag) =>
      if tag = "tile" then do
        let name ← reqField fs "name" decStr
        let grid_size ← reqField fs "gridSize" (decVec2 decI32)
        let export_id ← reqField fs "exportID" decStr
        let export_mode ← reqField fs "exportMode" ExportMode.deserialize
        let array_mode ← reqField fs "arrayMode" ArrayMode.deserialize
        let default_tileset ← reqField fs "defaultTileset" decStr
        pure { name, grid_size, export_id, export_mode, array_mode, default_tileset }
      else none
  | _ => none


def TileLayerTemplate.deserialize (j : Json) : Option TileLayerTemplate :=
  j.asObj.bind TileLayerTemplate.deserializeFields

def TileLayerTemplate.serialize (t : TileLayerTemplate) : Json :=
  .obj [("definition", .str "tile"), ("name", .str t.name),
        ("gridSize", encVec2 encI32 t.grid_size), ("exportID", .str t.export_id),
        ("exportMode", t.export_mode.serialize), ("arrayMode", t.array_mode.serialize),
        ("defaultTileset", .str t.default_tileset)]

/-- `GridLayerTemplate` (internally tagged, `definition = "grid"`). -/
def GridLayerTemplate.deserializeFields (fs : List (String × Json)) : Option GridLayerTemplate := do
  match getField fs "definition" with
  | some (.str tag) =>
      if tag = "grid" then do
        let name ← reqField fs "name" decStr
        let grid_size ← reqField fs "gridSize" (decVec2 decI32)
        let export_id ← reqField fs "exportID" decStr
        let array_mode ← reqField fs "arrayMode" ArrayMode.deserialize
        let legend ← reqField fs "legend" (decMap decStr)
        pure { name, grid_size, export_id, array_mode, legend }
      else none
  | _ => none


def GridLayerTemplate.deserialize (j : Json) : Option GridLayerTemplate :=
  j.asObj.bind GridLayerTemplate.deserializeFields

def GridLayerTemplate.serialize (t : GridLayerTemplate) : Json :=
  .obj [("definition", .str "grid"), ("name", .str t.name),
        ("gridSize", encVec2 encI32 t.grid_size), ("exportID", .str t.export_id),
        ("arrayMode", t.array_mode.serialize),
        ("legend", encMap Json.str t.legend)]

/-- `EntityLayerTemplate` (internally tagged, `definition = "entity"`). -/
def EntityLayerTemplate.deserializeFields (fs : List (String × Json)) : Option EntityLayerTemplate := do
  match getField fs "definition" with
  | some (.str tag) =>
      if tag = "entity" then do
        let name ← reqField fs "name" decStr
        let grid_size ← reqField fs "gridSize" (decVec2 decI32)
        let export_id ← reqField fs "exportID" decStr
        let required_tags ← reqField fs "requiredTags" (decList decStr)
        let excluded_tags ← reqField fs "excludedTags" (decList decStr)
        pure { name, grid_size, export_id, required_tags, excluded_tags }
      else none
  | _ => none


def EntityLayerTemplate.deserialize (j : Json) : Option EntityLayerTemplate :=
  j.asObj.bind EntityLayerTemplate.deserializeFields

def EntityLayerTemplate.serialize (t : EntityLayerTemplate) : Json :=
  .obj [("definition", .str "entity"), ("name", .str t.name),
        ("gridSize", encVec2 encI32 t.grid_size), ("exportID", .str t.export_id),
        ("requiredTags", encList Json.str t.required_tags),
        ("excludedTags", encList Json.str t.excluded_tags)]

/-- `DecalLayerTemplate` (internally tagged, `definition = "decal"`). -/
def DecalLayerTemplate.deserializeFields (fs : List (String × Json)) : Option DecalLayerTemplate := do
  match getField fs "definition" with
  | some (.str tag) =>
      if tag = "decal" then do
        let name ← reqField fs "name" decStr
        let grid_size ← reqField fs "gridSize" (decVec2 decI32)
        let export_id ← reqField fs "exportID" decStr
        let folder ← reqField fs "folder" decStr
        let include_image_sequence ← reqField fs "includeImageSequence" decBool
        let scaleable ← reqField fs "scaleable" decBool
        let rotatable ← reqField fs "rotatable" decBool
        let values ← reqField fs "values" (decList ValueTemplate.deserialize)
        pure { name, grid_size, export_id, folder, include_image_sequence,
               scaleable, rotatable, values }
      else none
  | _ => none


def DecalLayerTemplate.deserialize (j : Json) : Option DecalLayerTemplate :=
  j.asObj.bind DecalLayerTemplate.deserializeFields

def DecalLayerTemplate.serialize (t : DecalLayerTemplate) : Json :=
  .obj [("definition", .str "decal"), ("name", .str t.name),
        ("gridSize", encVec2 encI32 t.grid_size), ("exportID", .str t.export_id),
        ("folder", .str t.folder),
        ("includeImageSequence", .bool t.include_image_sequence),
        ("scaleable", .bool t.scaleable), ("rotatable", .bool t.rotatable),
        ("values", encList ValueTemplate.serialize t.values)]

/-- The untagged `LayerTemplate` deserializer: variants tried in declaration
order (Tile, Grid, Entity, Decal); each requires its own tag value. -/
def LayerTemplate.deserialize (j : Json) : Option LayerTemplate :=
  ((TileLayerTemplate.deserialize j).map LayerTemplate.Tile) <|>
  ((GridLayerTemplate.deserialize j).map LayerTemplate.Grid) <|>
  ((EntityLayerTemplate.deserialize j).map LayerTemplate.Entity) <|>
  ((DecalLayerTemplate.deserialize j).map LayerTemplate.Decal)

def LayerTemplate.serialize : LayerTemplate → Json
  | .Tile t => t.serialize
  | .Grid t => t.serialize
  | .Entity t => t.serialize
  | .Decal t => t.serialize

def Shape.deserializeFields (fs : List (String × Json)) : Option Shape := do
  let label ← reqField fs "label" decStr
  let points ← reqField fs "points" (decList (decVec2 decF32))
  pure { label, points }


def Shape.deserialize (j : Json) : Option Shape :=
  j.asObj.bind Shape.deserializeFields

def Shape.serialize (s : Shape) : Json :=
  .obj [("label", .str s.label), ("points", encList (encVec2 Json.num) s.points)]

/-- Fields `name` through `color` of an `EntityTemplate` (split out of the
whole-struct decoder purely to keep elaboration tractable). -/
def EntityTemplate.deserializeA (fs : List (String × Json)) :
    Option (String × String × Int × Vec2 Rat × Vec2 Rat × Bool × Shape × String) := do
  let name ← reqField fs "name" decStr
  let export_id ← reqField fs "exportID" decStr
  let limit ← reqField fs "limit" decI32
  let size ← reqField fs "size" (decVec2 decF32)
  let origin ← reqField fs "origin" (decVec2 decF32)
  let origin_anchored ← reqField fs "originAnchored" decBool
  let shape ← reqField fs "shape" Shape.deserialize
  let color ← reqField fs "color" decStr
  pure (name, export_id, limit, size, origin, origin_anchored, shape, color)

/-- Fields `tileX` through `canFlipX` of an `EntityTemplate`. -/
def EntityTemplate.deserializeB (fs : List (String × Json)) :
    Option (Bool × Bool × Vec2 Rat × Bool × Bool × Bool × Rat × Bool) := do
  let tile_x ← reqField fs "tileX" decBool
  let tile_y ← reqField fs "tileY" decBool
  let tile_size ← reqField fs "tileSize" (decVec2 decF32)
  let resizeable_x ← reqField fs "resizeableX" decBool
  let resizeable_y ← reqField fs "resizeableY" decBool
  let rotatable ← reqField fs "rotatable" decBool
  let rotation_degrees ← reqField fs "rotationDegrees" decF32
  let can_flip_x ← reqField fs "canFlipX" decBool
  pure (tile_x, tile_y, tile_size, resizeable_x, resizeable_y, rotatable,
        rotation_degrees, can_flip_x)

/-- Fields `canFlipY` through `textureImage` of an `EntityTemplate`. -/
def EntityTemplate.deserializeC (fs : List (String × Json)) :
    Option (Bool × Bool × Bool × Int × Int × Bool × List String ×
      List ValueTemplate × Option String × Option String) := do
  let can_flip_y ← reqField fs "canFlipY" decBool
  let can_set_color ← reqField fs "canSetColor" decBool
  let has_nodes ← reqField fs "hasNodes" decBool
  let node_limit ← reqField fs "nodeLimit" decI32
  let node_display ← reqField fs "nodeDisplay" decI32
  let node_ghost ← reqField fs "nodeGhost" decBool
  let tags ← reqField fs "tags" (decList decStr)
  let values ← reqField fs "values" (decList ValueTemplate.deserialize)
  let texture ← optJField fs "texture" decStr
  let texture_image ← optJField fs "textureImage" decStr
  pure (can_flip_y, can_set_color, has_nodes, node_limit, node_display,
        node_ghost, tags, values, texture, texture_image)

def EntityTemplate.deserializeFields (fs : List (String × Json)) : Option EntityTemplate := do
  let (name, export_id, limit, size, origin, origin_anchored, shape, color) ←
    EntityTemplate.deserializeA fs
  let (tile_x, tile_y, tile_size, resizeable_x, resizeable_y, rotatable,
       rotation_degrees, can_flip_x) ← EntityTemplate.deserializeB fs
  let (can_flip_y, can_set_color, has_nodes, node_limit, node_display,
       node_ghost, tags, values, texture, texture_image) ←
    EntityTemplate.deserializeC fs
  pure { name, export_id, limit, size, origin, origin_anchored, shape, color,
         tile_x, tile_y, tile_size, resizeable_x, resizeable_y, rotatable,
         rotation_degrees, can_flip_x, can_flip_y, can_set_color, has_nodes,
         node_limit, node_display, node_ghost, tags, values, texture,
         texture_image }


def EntityTemplate.deserialize (j : Json) : Option EntityTemplate :=
  j.asObj.bind EntityTemplate.deserializeFields

def EntityTemplate.serialize (t : EntityTemplate) : Json :=
  .obj ([("name", .str t.name), ("exportID", .str t.export_id),
         ("limit", encI32 t.limit), ("size", encVec2 Json.num t.size),
         ("origin", encVec2 Json.num t.origin),
         ("originAnchored", .bool t.origin_anchored),
         ("shape", t.shape.serialize), ("color", .str t.color),
         ("tileX", .bool t.tile_x), ("tileY", .bool t.tile_y),
         ("tileSize", encVec2 Json.num t.tile_size),
         ("resizeableX", .bool t.resizeable_x),
         ("resizeableY", .bool t.resizeable_y),
         ("rotatable", .bool t.rotatable),
         ("rotationDegrees", .num t.rotation_degrees),
         ("canFlipX", .bool t.can_flip_x), ("canFlipY", .bool t.can_flip_y),
         ("canSetColor", .bool t.can_set_color),
         ("hasNodes", .bool t.has_nodes), ("nodeLimit", encI32 t.node_limit),
         ("nodeDisplay", encI32 t.node_display),
         ("nodeGhost", .bool t.node_ghost),
         ("tags", encList Json.str t.tags),
         ("values", encList ValueTemplate.serialize t.values)]
    ++ optField "texture" Json.str t.texture
    ++ optField "textureImage" Json.str t.texture_image)

def Tileset.deserializeFields (fs : List (String × Json)) : Option Tileset := do
  let label ← reqField fs "label" decStr
  let path ← reqField fs "path" decStr
  let image ← reqField fs "image" decStr
  let tile_width ← reqField fs "tileWidth" decI32
  let tile_height ← reqField fs "tileHeight" decI32
  let tile_separation_x ← reqField fs "tileSeparationX" decI32
  let tile_separation_y ← reqField fs "tileSeparationY" decI32
  pure { label, path, image, tile_width, tile_height, tile_separation_x,
         tile_separation_y }


def Tileset.deserialize (j : Json) : Option Tileset :=
  j.asObj.bind Tileset.deserializeFields

def Tileset.serialize (t : Tileset) : Json :=
  .obj [("label", .str t.label), ("path", .str t.path),
        ("image", .str t.image), ("tileWidth", encI32 t.tile_width),
        ("tileHeight", encI32 t.tile_height),
        ("tileSeparationX", encI32 t.tile_separation_x),
        ("tileSeparationY", encI32 t.tile_separation_y)]

/-- Fields `name` through `levelMaxSize` of a `Project` (split out of the
whole-struct decoder purely to keep elaboration tractable). -/
def Project.deserializeA (fs : List (String × Json)) :
    Option (String × String × List String × String × String × Bool × Int ×
      Vec2 Int × Vec2 Int × Vec2 Int × Vec2 Int) := do
  let name ← reqField fs "name" decStr
  let ogmo_version ← reqField fs "ogmoVersion" decStr
  let level_paths ← reqField fs "levelPaths" (decList decStr)
  let background_color ← reqField fs "backgroundColor" decStr
  let grid_color ← reqField fs "gridColor" decStr
  let angles_radians ← reqField fs "anglesRadians" decBool
  let directory_depth ← reqField fs "directoryDepth" decI32
  let layer_grid_default_size ← reqField fs "layerGridDefaultSize" (decVec2 decI32)
  let level_default_size ← reqField fs "levelDefaultSize" (decVec2 decI32)
  let level_min_size ← reqField fs "levelMinSize" (decVec2 decI32)
  let level_max_size ← reqField fs "levelMaxSize" (decVec2 decI32)
  pure (name, ogmo_version, level_paths, background_color, grid_color,
        angles_radians, directory_depth, layer_grid_default_size,
        level_default_size, level_min_size, level_max_size)

/-- Fields `levelValues` through `tilesets` of a `Project`. -/
def Project.deserializeB (fs : List (String × Json)) :
    Option (List ValueTemplate × String × Bool × List String ×
      List LayerTemplate × List EntityTemplate × List Tileset) := do
  let level_values ← reqField fs "levelValues" (decList ValueTemplate.deserialize)
  let default_export_mode ← reqField fs "defaultExportMode" decStr
  let compact_export ← reqField fs "compactExport" decBool
  let entity_tags ← reqField fs "entityTags" (decList decStr)
  let layers ← reqField fs "layers" (decList LayerTemplate.deserialize)
  let entities ← reqField fs "entities" (decList EntityTemplate.deserialize)
  let tilesets ← reqField fs "tilesets" (decList Tileset.deserialize)
  pure (level_values, default_export_mode, compact_export, entity_tags,
        layers, entities, tilesets)

/-- `Project::from_json`, at the generic JSON value-tree level. -/
def Project.deserializeFields (fs : List (String × Json)) : Option Project := do
  let (name, ogmo_version, level_paths, background_color, grid_color,
       angles_radians, directory_depth, layer_grid_default_size,
       level_default_size, level_min_size, level_max_size) ←
    Project.deserializeA fs
  let (level_values, default_export_mode, compact_export, entity_tags,
       layers, entities, tilesets) ← Project.deserializeB fs
  pure { name, ogmo_version, level_paths, background_color, grid_color,
         angles_radians, directory_depth, layer_grid_default_size,
         level_default_size, level_min_size, level_max_size, level_values,
         default_export_mode, compact_export, entity_tags, layers, entities,
         tilesets }

/-- `Project::from_json`, at the generic JSON value-tree level. -/
def Project.from_json (j : Json) : Option Project :=
  j.asObj.bind Project.deserializeFields

/-- `Project::to_json`, at the generic JSON value-tree level. -/
def Project.to_json (p : Project) : Json :=
  .obj [("name", .str p.name), ("ogmoVersion", .str p.ogmo_version),
        ("levelPaths", encList Json.str p.level_paths),
        ("backgroundColor", .str p.background_color),
        ("gridColor", .str p.grid_color),
        ("anglesRadians", .bool p.angles_radians),
        ("directoryDepth", encI32 p.directory_depth),
        ("layerGridDefaultSize", encVec2 encI32 p.layer_grid_default_size),
        ("levelDefaultSize", encVec2 encI32 p.level_default_size),
        ("levelMinSize", encVec2 encI32 p.level_min_size),
        ("levelMaxSize", encVec2 encI32 p.level_max_size),
        ("levelValues", encList ValueTemplate.serialize p.level_values),
        ("defaultExportMode", .str p.default_export_mode),
        ("compactExport", .bool p.compact_export),
        ("entityTags", encList Json.str p.entity_tags),
        ("layers", encList LayerTemplate.serialize p.layers),
        ("entities", encList EntityTemplate.serialize p.entities),
        ("tilesets", encList Tileset.serialize p.tilesets)]

/-! ## Well-formedness

A model value is well formed when every field modelling a Rust `i32` holds
a value in the signed 32-bit range — the invariant every value produced by
the Rust code satisfies by construction (its fields ARE `i32`s), which the
`Int`-based model must state explicitly for the deserializer's range check
to succeed on re-parse. -/

def Vec2.wfI (v : Vec2 Int) : Prop :=
  i32Bounds v.x ∧ i32Bounds v.y

instance (v : Vec2 Int) : Decidable (v.wfI) := by
  unfold Vec2.wfI
  infer_instance

def Entity.wf (e : Entity) : Prop :=
  i32Bounds e.id

def TileLayerStorage.wf : TileLayerStorage → Prop
  | .Data d => ∀ v ∈ d, i32Bounds v
  | .Data2D d => ∀ r ∈ d, ∀ v ∈ r, i32Bounds v

def TileCoordsLayerStorage.wf : TileCoordsLayerStorage → Prop
  | .DataCoords d => ∀ r ∈ d, ∀ v ∈ r, i32Bounds v
  | .DataCoords2D d => ∀ p ∈ d, ∀ r ∈ p, ∀ v ∈ r, i32Bounds v

def TileLayer.wf (l : TileLayer) : Prop :=
  i32Bounds l.grid_cell_width ∧ i32Bounds l.grid_cell_height ∧
    i32Bounds l.grid_cells_x ∧ i32Bounds l.grid_cells_y ∧ l.data.wf

def TileCoordsLayer.wf (l : TileCoordsLayer) : Prop :=
  i32Bounds l.grid_cell_width ∧ i32Bounds l.grid_cell_height ∧
    i32Bounds l.grid_cells_x ∧ i32Bounds l.grid_cells_y ∧ l.data.wf

def GridLayer.wf (l : GridLayer) : Prop :=
  i32Bounds l.grid_cell_width ∧ i32Bounds l.grid_cell_height ∧
    i32Bounds l.grid_cells_x ∧ i32Bounds l.grid_cells_y

def EntityLayer.wf (l : EntityLayer) : Prop :=
  i32Bounds l.grid_cell_width ∧ i32Bounds l.grid_cell_height ∧
    i32Bounds l.grid_cells_x ∧ i32Bounds l.grid_cells_y ∧
    ∀ e ∈ l.entities, e.wf

def DecalLayer.wf (l : DecalLayer) : Prop :=
  i32Bounds l.grid_cell_width ∧ i32Bounds l.grid_cell_height ∧
    i32Bounds l.grid_cells_x ∧ i32Bounds l.grid_cells_y

def Layer.wf : Layer → Prop
  | .Tile l => l.wf
  | .TileCoords l => l.wf
  | .Grid l => l.wf
  | .Entity l => l.wf
  | .Decal l => l.wf

def Level.wf (l : Level) : Prop :=
  ∀ la ∈ l.layers, la.wf

def ValueTemplate.wf : ValueTemplate → Prop
  | .Boolean _ => True
  | .Color _ => True
  | .Enum t => i32Bounds t.defaults
  | .Integer t => i32Bounds t.defaults ∧ i32Bounds t.min ∧ i32Bounds t.max
  | .Float _ => True
  | .String t => i32Bounds t.max_length
  | .Text _ => True

def LayerTemplate.wf : LayerTemplate → Prop
  | .Tile t => t.grid_size.wfI
  | .Grid t => t.grid_size.wfI
  | .Entity t => t.grid_size.wfI
  | .Decal t => t.grid_size.wfI ∧ ∀ v ∈ t.values, v.wf

def EntityTemplate.wf (t : EntityTemplate) : Prop :=
  i32Bounds t.limit ∧ i32Bounds t.node_limit ∧ i32Bounds t.node_display ∧
    ∀ v ∈ t.values, v.wf

def Tileset.wf (t : Tileset) : Prop :=
  i32Bounds t.tile_width ∧ i32Bounds t.tile_height ∧
    i32Bounds t.tile_separation_x ∧ i32Bounds t.tile_separation_y

def Project.wf (p : Project) : Prop :=
  i32Bounds p.directory_depth ∧ p.layer_grid_default_size.wfI ∧
    p.level_default_size.wfI ∧ p.level_min_size.wfI ∧ p.level_max_size.wfI ∧
    (∀ v ∈ p.level_values, v.wf) ∧ (∀ t ∈ p.layers, t.wf) ∧
    (∀ t ∈ p.entities, t.wf) ∧ ∀ t ∈ p.tilesets, t.wf

instance (e : Entity) : Decidable e.wf :=
  decidable_of_iff (i32Bounds e.id) Iff.rfl

instance : (s : TileLayerStorage) → Decidable s.wf
  | .Data d => decidable_of_iff (∀ v ∈ d, i32Bounds v) Iff.rfl
  | .Data2D d => decidable_of_iff (∀ r ∈ d, ∀ v ∈ r, i32Bounds v) Iff.rfl

instance : (s : TileCoordsLayerStorage) → Decidable s.wf
  | .DataCoords d => decidable_of_iff (∀ r ∈ d, ∀ v ∈ r, i32Bounds v) Iff.rfl
  | .DataCoords2D d =>
      decidable_of_iff (∀ p ∈ d, ∀ r ∈ p, ∀ v ∈ r, i32Bounds v) Iff.rfl

instance (l : TileLayer) : Decidable l.wf :=
  decidable_of_iff (i32Bounds l.grid_cell_width ∧ i32Bounds l.grid_cell_height ∧
    i32Bounds l.grid_cells_x ∧ i32Bounds l.grid_cells_y ∧ l.data.wf) Iff.rfl

instance (l : TileCoordsLayer) : Decidable l.wf :=
  decidable_of_iff (i32Bounds l.grid_cell_width ∧ i32Bounds l.grid_cell_height ∧
    i32Bounds l.grid_cells_x ∧ i32Bounds l.grid_cells_y ∧ l.data.wf) Iff.rfl

instance (l : GridLayer) : Decidable l.wf :=
  decidable_of_iff (i32Bounds l.grid_cell_width ∧ i32Bounds l.grid_cell_height ∧
    i32Bounds l.grid_cells_x ∧ i32Bounds l.grid_cells_y) Iff.rfl

instance (l : EntityLayer) : Decidable l.wf :=
  decidable_of_iff (i32Bounds l.grid_cell_width ∧ i32Bounds l.grid_cell_height ∧
    i32Bounds l.grid_cells_x ∧ i32Bounds l.grid_cells_y ∧
    ∀ e ∈ l.entities, e.wf) Iff.rfl

instance (l : DecalLayer) : Decidable l.wf :=
  decidable_of_iff (i32Bounds l.grid_cell_width ∧ i32Bounds l.grid_cell_height ∧
    i32Bounds l.grid_cells_x ∧ i32Bounds l.grid_cells_y) Iff.rfl

instance : (la : Layer) → Decidable la.wf
  | .Tile l => decidable_of_iff l.wf Iff.rfl
  | .TileCoords l => decidable_of_iff l.wf Iff.rfl
  | .Grid l => decidable_of_iff l.wf Iff.rfl
  | .Entity l => decidable_of_iff l.wf Iff.rfl
  | .Decal l => decidable_of_iff l.wf Iff.rfl

instance (l : Level) : Decidable l.wf :=
  decidable_of_iff (∀ la ∈ l.layers, la.wf) Iff.rfl

instance : (v : ValueTemplate) → Decidable v.wf
  | .Boolean _ => decidable_of_iff True Iff.rfl
  | .Color _ => decidable_of_iff True Iff.rfl
  | .Enum t => decidable_of_iff (i32Bounds t.defaults) Iff.rfl
  | .Integer t =>
      decidable_of_iff (i32Bounds t.defaults ∧ i32Bounds t.min ∧
        i32Bounds t.max) Iff.rfl
  | .Float _ => decidable_of_iff True Iff.rfl
  | .String t => decidable_of_iff (i32Bounds t.max_length) Iff.rfl
  | .Text _ => decidable_of_iff True Iff.rfl

instance : (t : LayerTemplate) → Decidable t.wf
  | .Tile t => decidable_of_iff t.grid_size.wfI Iff.rfl
  | .Grid t => decidable_of_iff t.grid_size.wfI Iff.rfl
  | .Entity t => decidable_of_iff t.grid_size.wfI Iff.rfl
  | .Decal t =>
      decidable_of_iff (t.grid_size.wfI ∧ ∀ v ∈ t.values, v.wf) Iff.rfl

instance (t : EntityTemplate) : Decidable t.wf :=
  decidable_of_iff (i32Bounds t.limit ∧ i32Bounds t.node_limit ∧
    i32Bounds t.node_display ∧ ∀ v ∈ t.values, v.wf) Iff.rfl

instance (t : Tileset) : Decidable t.wf :=
  decidable_of_iff (i32Bounds t.tile_width ∧ i32Bounds t.tile_height ∧
    i32Bounds t.tile_separation_x ∧ i32Bounds t.tile_separation_y) Iff.rfl

instance (p : Project) : Decidable p.wf :=
  decidable_of_iff (i32Bounds p.directory_depth ∧ p.layer_grid_default_size.wfI ∧
    p.level_default_size.wfI ∧ p.level_min_size.wfI ∧ p.level_max_size.wfI ∧
    (∀ v ∈ p.level_values, v.wf) ∧ (∀ t ∈ p.layers, t.wf) ∧
    (∀ t ∈ p.entities, t.wf) ∧ ∀ t ∈ p.tilesets, t.wf) Iff.rfl

/-! ## Concrete documents and model values used by the verification -/

/-- A tile layer with flat ID storage whose data length (6) deliberately
disagrees with `grid_cells_x * grid_cells_y = 4`: the decoder performs no
length validation. -/
def tileLayerA : TileLayer :=
  { name := "fg", export_id := "e1", offset_x := 0, offset_y := 0,
    grid_cell_width := 16, grid_cell_height := 16,
    grid_cells_x := 4, grid_cells_y := 1, tileset := "t",
    data := .Data [0, 0, 0, 0, 0, 5] }

/-- A tile layer holding the flat ID array `[-1, 3, -1]`. -/
def tileLayerB : TileLayer :=
  { name := "fg2", export_id := "e2", offset_x := 0, offset_y := 0,
    grid_cell_width := 16, grid_cell_height := 16,
    grid_cells_x := 3, grid_cells_y := 1, tileset := "t",
    data := .Data [-1, 3, -1] }

/-- A grid layer with flat string storage of length 3 over a 2-wide grid. -/
def gridLayerA : GridLayer :=
  { name := "g", export_id := "e3", offset_x := 0, offset_y := 0,
    grid_cell_width := 8, grid_cell_height := 8,
    grid_cells_x := 2, grid_cells_y := 1, data := .Grid ["0", "a", "0"] }

/-- A tile-coords layer with cell size 8 holding `[[2,1],[-1],[-1,-1],[0,3]]`. -/
def tileCoordsLayerA : TileCoordsLayer :=
  { name := "tc", export_id := "e4", offset_x := 0, offset_y := 0,
    grid_cell_width := 8, grid_cell_height := 8,
    grid_cells_x := 2, grid_cells_y := 2, tileset := "t",
    data := .DataCoords [[2, 1], [-1], [-1, -1], [0, 3]] }

/-- A tile-coords layer holding the malformed one-element entry `[5]`. -/
def tileCoordsLayerB : TileCoordsLayer :=
  { name := "tc2", export_id := "e5", offset_x := 0, offset_y := 0,
    grid_cell_width := 8, grid_cell_height := 8,
    grid_cells_x := 1, grid_cells_y := 1, tileset := "t",
    data := .DataCoords [[5]] }

/-- A 16×16 tileset with no separation. -/
def tilesetA : Tileset :=
  { label := "tiles", path := "t.png", image := "", tile_width := 16,
    tile_height := 16, tile_separation_x := 0, tile_separation_y := 0 }

/-- A level document that omits the optional `values` field (accepted by
the parser, which defaults the field to an empty mapping). -/
def levelDocA : Json :=
  .obj [("ogmoVersion", .str "3.3.0"), ("width", .num 64),
        ("height", .num 64), ("offsetX", .num 0), ("offsetY", .num 0),
        ("layers", .arr [])]

/-- The level `levelDocA` parses to. -/
def levelA : Level :=
  { ogmo_version := "3.3.0", width := 64, height := 64, offset_x := 0,
    offset_y := 0, values := [], layers := [] }

/-- An entity with a mix of present and absent optional attributes. -/
def entityA : Entity :=
  { name := "player", id := 7, export_id := "e9", x := 12, y := 8,
    width := none, height := none, origin_x := some 0, origin_y := some 0,
    rotation := none, flipped_x := some true, flipped_y := none,
    nodes := some [⟨1, 2⟩], values := some [("hp", .Number 3)] }

/-- The field list of a JSON entity object that decodes to `entityA`:
the optional attributes absent from `entityA` are absent here too. -/
def entityFieldsA : JObj :=
  [("name", .str "player"), ("id", .num 7), ("_eid", .str "e9"),
   ("x", .num 12), ("y", .num 8), ("originX", .num 0), ("originY", .num 0),
   ("flippedX", .bool true),
   ("nodes", .arr [.obj [("x", .num 1), ("y", .num 2)]]),
   ("values", .obj [("hp", .num 3)])]

/-- A decal with one optional attribute present. -/
def decalA : Decal :=
  { x := 1, y := 2, scale_x := some 2, scale_y := none, rotation := none,
    texture := "leaf.png", values := [] }

/-- A level exercising several layer kinds, used as a round-trip witness. -/
def levelB : Level :=
  { ogmo_version := "3.3.0", width := 64, height := 64, offset_x := 0,
    offset_y := 0, values := [("depth", .Number 2)],
    layers :=
      [.Tile tileLayerA,
       .TileCoords tileCoordsLayerA,
       .Grid gridLayerA,
       .Entity { name := "obj", export_id := "e6", offset_x := 0,
                 offset_y := 0, grid_cell_width := 8, grid_cell_height := 8,
                 grid_cells_x := 8, grid_cells_y := 8,
                 entities := [entityA] },
       .Decal { name := "dec", export_id := "e7", offset_x := 0,
                offset_y := 0, grid_cell_width := 8, grid_cell_height := 8,
                grid_cells_x := 8, grid_cells_y := 8, decals := [decalA],
                folder := "decals" }] }

/-- An entity template with every required field populated. -/
def entityTemplateA : EntityTemplate :=
  { name := "player", export_id := "x3", limit := -1, size := ⟨16, 16⟩,
    origin := ⟨0, 0⟩, origin_anchored := true,
    shape := { label := "Rectangle", points := [⟨-1, -1⟩, ⟨1, -1⟩] },
    color := "#ff0000ff", tile_x := false, tile_y := false,
    tile_size := ⟨16, 16⟩, resizeable_x := false, resizeable_y := true,
    rotatable := false, rotation_degrees := 15, can_flip_x := true,
    can_flip_y := false, can_set_color := false, has_nodes := true,
    node_limit := 0, node_display := 0, node_ghost := true,
    tags := ["player"], values := [], texture := some "player.png",
    texture_image := none }

/-- A project exercising value templates, layer templates, entity
templates and tilesets, used as a round-trip witness. -/
def projectA : Project :=
  { name := "proj", ogmo_version := "3.3.0", level_paths := ["levels"],
    background_color := "#000000ff", grid_color := "#111111ff",
    angles_radians := true, directory_depth := 5,
    layer_grid_default_size := ⟨8, 8⟩, level_default_size := ⟨320, 240⟩,
    level_min_size := ⟨128, 128⟩, level_max_size := ⟨4096, 4096⟩,
    level_values := [.Integer { name := "n", defaults := 0, bounded := false,
                                min := 0, max := 100 },
                     .String { name := "s", defaults := "", max_length := 8,
                               trim_whitespace := true }],
    default_export_mode := ".json", compact_export := false,
    entity_tags := ["enemy"],
    layers := [.Tile { name := "tiles", grid_size := ⟨8, 8⟩,
                       export_id := "x1", export_mode := .Coords,
                       array_mode := .One, default_tileset := "tiles" },
               .Decal { name := "decs", grid_size := ⟨8, 8⟩,
                        export_id := "x2", folder := "decals",
                        include_image_sequence := true, scaleable := false,
                        rotatable := true,
                        values := [.Boolean { name := "b",
                                              defaults := true }] }],
    entities := [entityTemplateA],
    tilesets := [tilesetA] }

/-! ## Generic lemmas about lookup, mapM, and the scalar codecs -/

theorem getField_append (l1 l2 : List (String × Json)) (n : String) :
    getField (l1 ++ l2) n =
      match getField l1 n with
      | some v => some v
      | none => getField l2 n := by
  induction l1 with
  | nil => simp [getField]
  | cons kv rest ih =>
      by_cases h : kv.1 = n
      · simp [getField, h]
      · simp [getField, h, ih]

@[simp]
theorem getField_optField_self (name : String) (f : α → Json) (v : Option α) :
    getField (optField name f v) name = v.map f := by
  cases v <;> simp [optField, getField]

theorem getField_optField_ne (name n : String) (f : α → Json) (v : Option α)
    (h : name ≠ n) : getField (optField name f v) n = none := by
  cases v <;> simp [optField, getField, h]

theorem mapMo_eq_map_of_forall {α β : Type} {f : α → Option β} {g : α → β} :
    ∀ {l : List α}, (∀ a ∈ l, f a = some (g a)) → mapMo l f = some (l.map g) := by
  intro l
  induction l with
  | nil => intro _; rfl
  | cons a rest ih =>
      intro h
      have ha := h a (by simp)
      have hr := ih fun b hb => h b (by simp [hb])
      simp [mapMo, ha, hr]

theorem mapMo_isSome_iff {α β : Type} {f : α → Option β} :
    ∀ {l : List α}, (mapMo l f).isSome ↔ ∀ a ∈ l, (f a).isSome := by
  intro l
  induction l with
  | nil => simp [mapMo]
  | cons a rest ih =>
      cases ha : f a with
      | none => simp [mapMo, ha]
      | some b =>
          cases hr : mapMo rest f with
          | none =>
              have hnot : ¬ ∀ x ∈ rest, (f x).isSome := by
                rw [← ih, hr]
                simp
              simp only [mapMo, ha, hr, Option.isSome_none,
                Bool.false_eq_true, false_iff]
              intro hx
              exact hnot fun x hxr => hx x (by simp [hxr])
          | some bs =>
              have hall : ∀ x ∈ rest, (f x).isSome := by
                rw [← ih, hr]
                rfl
              simp only [mapMo, ha, hr, Option.isSome_some, true_iff]
              intro x hx
              rcases List.mem_cons.1 hx with h1 | h2
              · rw [h1, ha]; rfl
              · exact hall x h2

theorem decList_encList {α : Type} {f : Json → Option α} {g : α → Json} :
    ∀ {l : List α}, (∀ a ∈ l, f (g a) = some a) →
      decList f (encList g l) = some l := by
  intro l
  induction l with
  | nil => intro _; rfl
  | cons a rest ih =>
      intro h
      have ha := h a (by simp)
      have hr := ih fun b hb => h b (by simp [hb])
      simp only [decList, encList, List.map_cons] at hr ⊢
      simp [mapMo, ha, hr]

theorem decMap_encMap {α : Type} {f : Json → Option α} {g : α → Json} :
    ∀ {m : List (String × α)}, (∀ kv ∈ m, f (g kv.2) = some kv.2) →
      decMap f (encMap g m) = some m := by
  intro m
  induction m with
  | nil => intro _; rfl
  | cons kv rest ih =>
      intro h
      have ha := h kv (by simp)
      have hr := ih fun b hb => h b (by simp [hb])
      simp only [decMap, encMap, List.map_cons] at hr ⊢
      simp [mapMo, ha, hr]

theorem decI32_encI32 {n : Int} (h : i32Bounds n) :
    decI32 (encI32 n) = some n := by
  simp [decI32, encI32, Rat.den_intCast, Rat.num_intCast, h]

theorem value_roundtrip (v : Value) :
    Value.deserialize (Value.serialize v) = some v := by
  cases v <;> rfl

theorem decVec2_num (v : Vec2 Rat) :
    decVec2 decF32 (encVec2 Json.num v) = some v := by
  simp [decVec2, encVec2, Json.asObj, reqField, getField, decF32]

theorem decVec2_int {v : Vec2 Int} (h : v.wfI) :
    decVec2 decI32 (encVec2 encI32 v) = some v := by
  simp [decVec2, encVec2, Json.asObj, reqField, getField,
    decI32_encI32 h.1, decI32_encI32 h.2]

theorem decList_str (l : List String) :
    decList decStr (encList Json.str l) = some l :=
  decList_encList fun _ _ => rfl

theorem decMap_str (m : List (String × String)) :
    decMap decStr (encMap Json.str m) = some m :=
  decMap_encMap fun _ _ => rfl

theorem decList_vec2num (l : List (Vec2 Rat)) :
    decList (decVec2 decF32) (encList (encVec2 Json.num) l) = some l :=
  decList_encList fun v _ => decVec2_num v

theorem getField_optField_append_self {α : Type} {name : String}
    {g : α → Json} {v : Option α} {l2 : List (String × Json)}
    (h2 : getField l2 name = none) :
    getField (optField name g v ++ l2) name = v.map g := by
  cases v <;> simp [optField, getField, h2]

theorem getField_optField_append_ne {α : Type} {other name : String}
    {g : α → Json} {v : Option α} {l2 : List (String × Json)}
    (h : other ≠ name) :
    getField (optField other g v ++ l2) name = getField l2 name := by
  cases v <;> simp [optField, getField, h]

theorem decOpt_num (v : Option Rat) :
    decOpt decF32 (v.map Json.num) = some v := by
  cases v <;> simp [decOpt, decF32]

theorem decOpt_bool (v : Option Bool) :
    decOpt decBool (v.map Json.bool) = some v := by
  cases v <;> simp [decOpt, decBool]

theorem decOpt_str (v : Option String) :
    decOpt decStr (v.map Json.str) = some v := by
  cases v <;> simp [decOpt, decStr]

theorem decOpt_nodes (v : Option (List (Vec2 Rat))) :
    decOpt (decList (decVec2 decF32)) (v.map (encList (encVec2 Json.num))) =
      some v := by
  cases v with
  | none => simp [decOpt]
  | some l =>
      have hd : decList (decVec2 decF32) (encList (encVec2 Json.num) l) = some l :=
        decList_encList fun x _ => decVec2_num x
      simp only [encList] at hd
      simp [decOpt, encList, hd]

theorem decOpt_values (v : Option (List (String × Value))) :
    decOpt (decMap Value.deserialize) (v.map (encMap Value.serialize)) =
      some v := by
  cases v with
  | none => simp [decOpt]
  | some m =>
      have hd : decMap Value.deserialize (encMap Value.serialize m) = some m :=
        decMap_encMap fun kv _ => value_roundtrip kv.2
      simp only [encMap] at hd
      simp [decOpt, encMap, hd]

set_option maxHeartbeats 1600000 in
theorem entity_roundtrip (e : Entity) (h : e.wf) :
    Entity.deserialize (Entity.serialize e) = some e := by
  simp only [Entity.serialize, List.append_assoc, List.cons_append,
    List.nil_append]
  simp only [Entity.deserialize, Json.asObj, Option.some_bind,
    Entity.deserializeFields, reqField, optJField]
  simp only [getField, String.reduceEq, reduceIte, ne_eq, not_false_eq_true,
    getField_optField_append_self, getField_optField_append_ne,
    getField_optField_self, getField_optField_ne,
    decOpt_num, decOpt_bool, decOpt_nodes, decOpt_values]
  simp [decStr, decF32, decI32_encI32 h]

set_option maxHeartbeats 1600000 in
theorem decal_roundtrip (d : Decal) :
    Decal.deserialize (Decal.serialize d) = some d := by
  simp only [Decal.serialize, List.append_assoc, List.cons_append,
    List.nil_append]
  simp only [Decal.deserialize, Json.asObj, Option.some_bind,
    Decal.deserializeFields, reqField, optJField]
  simp only [getField, String.reduceEq, reduceIte, ne_eq, not_false_eq_true,
    getField_optField_append_self, getField_optField_append_ne,
    getField_optField_self, getField_optField_ne, decOpt_num]
  simp [decStr, decF32,
    decMap_encMap fun (kv : String × Value) _ => value_roundtrip kv.2]

/-! ## Round trips for the layer storages and layers -/

theorem tileLayerStorage_roundtrip (s : TileLayerStorage) (h : s.wf) :
    TileLayerStorage.deserialize s.serialize = some s := by
  cases s with
  | Data d =>
      have hd : decList decI32 (encList encI32 d) = some d :=
        decList_encList fun v hv => decI32_encI32 (h v hv)
      simp [TileLayerStorage.serialize, TileLayerStorage.deserialize,
        findField, hd]
  | Data2D d =>
      have hd : decList (decList decI32) (encList (encList encI32) d) = some d :=
        decList_encList fun r hr =>
          decList_encList fun v hv => decI32_encI32 (h r hr v hv)
      simp [TileLayerStorage.serialize, TileLayerStorage.deserialize,
        findField, hd]

theorem tileCoordsLayerStorage_roundtrip (s : TileCoordsLayerStorage)
    (h : s.wf) : TileCoordsLayerStorage.deserialize s.serialize = some s := by
  cases s with
  | DataCoords d =>
      have hd : decList (decList decI32) (encList (encList encI32) d) = some d :=
        decList_encList fun r hr =>
          decList_encList fun v hv => decI32_encI32 (h r hr v hv)
      simp [TileCoordsLayerStorage.serialize, TileCoordsLayerStorage.deserialize,
        findField, hd]
  | DataCoords2D d =>
      have hd : decList (decList (decList decI32))
          (encList (encList (encList encI32)) d) = some d :=
        decList_encList fun p hp =>
          decList_encList fun r hr =>
            decList_encList fun v hv => decI32_encI32 (h p hp r hr v hv)
      simp [TileCoordsLayerStorage.serialize, TileCoordsLayerStorage.deserialize,
        findField, hd]

theorem gridLayerStorage_roundtrip (s : GridLayerStorage) :
    GridLayerStorage.deserialize s.serialize = some s := by
  cases s with
  | Grid d =>
      have hd : decList decStr (encList Json.str d) = some d :=
        decList_encList fun v _ => rfl
      simp [GridLayerStorage.serialize, GridLayerStorage.deserialize,
        findField, hd]
  | Grid2D d =>
      have hd : decList (decList decStr) (encList (encList Json.str) d) = some d :=
        decList_encList fun r _ => decList_encList fun v _ => rfl
      simp [GridLayerStorage.serialize, GridLayerStorage.deserialize,
        findField, hd]

theorem findField_cons_ne {k : String} {v : Json} {rest : List (String × Json)}
    {names : List String} (h : ¬ k ∈ names) :
    findField ((k, v) :: rest) names = findField rest names := by
  simp [findField, h]

set_option maxHeartbeats 1600000 in
theorem tileLayer_roundtrip (l : TileLayer) (h : l.wf) :
    TileLayer.deserialize (TileLayer.serialize l) = some l := by
  obtain ⟨h1, h2, h3, h4, h5⟩ := h
  have hs := tileLayerStorage_roundtrip l.data h5
  simp only [TileLayer.serialize, List.append_assoc, List.cons_append,
    List.nil_append]
  simp only [TileLayer.deserialize, Json.asObj, Option.some_bind,
    TileLayer.deserializeFields, reqField]
  simp only [TileLayerStorage.deserialize, findField, List.mem_cons,
    List.mem_singleton, List.not_mem_nil, String.reduceEq, or_self, or_false,
    false_or, reduceIte, getField, ne_eq, not_false_eq_true] at hs ⊢
  simp [decStr, decF32, decI32_encI32 h1, decI32_encI32 h2,
    decI32_encI32 h3, decI32_encI32 h4, hs]

set_option maxHeartbeats 1600000 in
theorem tileCoordsLayer_roundtrip (l : TileCoordsLayer) (h : l.wf) :
    TileCoordsLayer.deserialize (TileCoordsLayer.serialize l) = some l := by
  obtain ⟨h1, h2, h3, h4, h5⟩ := h
  have hs := tileCoordsLayerStorage_roundtrip l.data h5
  simp only [TileCoordsLayer.serialize, List.append_assoc, List.cons_append,
    List.nil_append]
  simp only [TileCoordsLayer.deserialize, Json.asObj, Option.some_bind,
    TileCoordsLayer.deserializeFields, reqField]
  simp only [TileCoordsLayerStorage.deserialize, findField, List.mem_cons,
    List.mem_singleton, List.not_mem_nil, String.reduceEq, or_self, or_false,
    false_or, reduceIte, getField, ne_eq, not_false_eq_true] at hs ⊢
  simp [decStr, decF32, decI32_encI32 h1, decI32_encI32 h2,
    decI32_encI32 h3, decI32_encI32 h4, hs]

set_option maxHeartbeats 1600000 in
theorem gridLayer_roundtrip (l : GridLayer) (h : l.wf) :
    GridLayer.deserialize (GridLayer.serialize l) = some l := by
  obtain ⟨h1, h2, h3, h4⟩ := h
  have hs := gridLayerStorage_roundtrip l.data
  simp only [GridLayer.serialize, List.append_assoc, List.cons_append,
    List.nil_append]
  simp only [GridLayer.deserialize, Json.asObj, Option.some_bind,
    GridLayer.deserializeFields, reqField]
  simp only [GridLayerStorage.deserialize, findField, List.mem_cons,
    List.mem_singleton, List.not_mem_nil, String.reduceEq, or_self, or_false,
    false_or, reduceIte, getField, ne_eq, not_false_eq_true] at hs ⊢
  simp [decStr, decF32, decI32_encI32 h1, decI32_encI32 h2,
    decI32_encI32 h3, decI32_encI32 h4, hs]

set_option maxHeartbeats 1600000 in
theorem entityLayer_roundtrip (l : EntityLayer) (h : l.wf) :
    EntityLayer.deserialize (EntityLayer.serialize l) = some l := by
  obtain ⟨h1, h2, h3, h4, h5⟩ := h
  have hd : decList Entity.deserialize (encList Entity.serialize l.entities) =
      some l.entities :=
    decList_encList fun e he => entity_roundtrip e (h5 e he)
  simp only [EntityLayer.serialize]
  simp only [EntityLayer.deserialize, Json.asObj, Option.some_bind,
    EntityLayer.deserializeFields, reqField]
  simp only [getField, String.reduceEq, reduceIte, ne_eq, not_false_eq_true]
  simp [decStr, decF32, decI32_encI32 h1, decI32_encI32 h2,
    decI32_encI32 h3, decI32_encI32 h4, hd]

set_option maxHeartbeats 1600000 in
theorem decalLayer_roundtrip (l : DecalLayer) (h : l.wf) :
    DecalLayer.deserialize (DecalLayer.serialize l) = some l := by
  obtain ⟨h1, h2, h3, h4⟩ := h
  have hd : decList Decal.deserialize (encList Decal.serialize l.decals) =
      some l.decals :=
    decList_encList fun d _ => decal_roundtrip d
  simp only [DecalLayer.serialize]
  simp only [DecalLayer.deserialize, Json.asObj, Option.some_bind,
    DecalLayer.deserializeFields, reqField]
  simp only [getField, String.reduceEq, reduceIte, ne_eq, not_false_eq_true]
  simp [decStr, decF32, decI32_encI32 h1, decI32_encI32 h2,
    decI32_encI32 h3, decI32_encI32 h4, hd]

/-! ## The untagged layer matcher commits to the correct variant

For each encoded layer kind, the deserializers of the variants tried
earlier in the declaration order fail (the shape-distinguishing field is
absent), so the untagged decoder reproduces the original variant. -/

set_option maxHeartbeats 1600000 in
theorem tile_deserialize_tileCoords (l : TileCoordsLayer) (h : l.wf) :
    TileLayer.deserialize (TileCoordsLayer.serialize l) = none := by
  obtain ⟨h1, h2, h3, h4, _⟩ := h
  cases hs : l.data with
  | DataCoords d =>
      simp only [TileCoordsLayer.serialize, hs, TileCoordsLayerStorage.serialize,
        List.append_assoc, List.cons_append, List.nil_append]
      simp only [TileLayer.deserialize, Json.asObj, Option.some_bind,
        TileLayer.deserializeFields, reqField]
      simp only [TileLayerStorage.deserialize, findField, List.mem_cons,
        List.mem_singleton, List.not_mem_nil, String.reduceEq, or_self,
        or_false, false_or, reduceIte, getField]
      simp [decStr, decF32, decI32_encI32 h1, decI32_encI32 h2,
        decI32_encI32 h3, decI32_encI32 h4]
  | DataCoords2D d =>
      simp only [TileCoordsLayer.serialize, hs, TileCoordsLayerStorage.serialize,
        List.append_assoc, List.cons_append, List.nil_append]
      simp only [TileLayer.deserialize, Json.asObj, Option.some_bind,
        TileLayer.deserializeFields, reqField]
      simp only [TileLayerStorage.deserialize, findField, List.mem_cons,
        List.mem_singleton, List.not_mem_nil, String.reduceEq, or_self,
        or_false, false_or, reduceIte, getField]
      simp [decStr, decF32, decI32_encI32 h1, decI32_encI32 h2,
        decI32_encI32 h3, decI32_encI32 h4]

set_option maxHeartbeats 1600000 in
theorem tile_deserialize_grid (g : GridLayer) (h : g.wf) :
    TileLayer.deserialize (GridLayer.serialize g) = none := by
  obtain ⟨h1, h2, h3, h4⟩ := h
  cases hs : g.data with
  | Grid d =>
      simp only [GridLayer.serialize, hs, GridLayerStorage.serialize,
        List.append_assoc, List.cons_append, List.nil_append]
      simp only [TileLayer.deserialize, Json.asObj, Option.some_bind,
        TileLayer.deserializeFields, reqField]
      simp only [getField, String.reduceEq, reduceIte]
      simp [decStr, decF32, decI32_encI32 h1, decI32_encI32 h2,
        decI32_encI32 h3, decI32_encI32 h4]
  | Grid2D d =>
      simp only [GridLayer.serialize, hs, GridLayerStorage.serialize,
        List.append_assoc, List.cons_append, List.nil_append]
      simp only [TileLayer.deserialize, Json.asObj, Option.some_bind,
        TileLayer.deserializeFields, reqField]
      simp only [getField, String.reduceEq, reduceIte]
      simp [decStr, decF32, decI32_encI32 h1, decI32_encI32 h2,
        decI32_encI32 h3, decI32_encI32 h4]

set_option maxHeartbeats 1600000 in
theorem tileCoords_deserialize_grid (g : GridLayer) (h : g.wf) :
    TileCoordsLayer.deserialize (GridLayer.serialize g) = none := by
  obtain ⟨h1, h2, h3, h4⟩ := h
  cases hs : g.data with
  | Grid d =>
      simp only [GridLayer.serialize, hs, GridLayerStorage.serialize,
        List.append_assoc, List.cons_append, List.nil_append]
      simp only [TileCoordsLayer.deserialize, Json.asObj, Option.some_bind,
        TileCoordsLayer.deserializeFields, reqField]
      simp only [getField, String.reduceEq, reduceIte]
      simp [decStr, decF32, decI32_encI32 h1, decI32_encI32 h2,
        decI32_encI32 h3, decI32_encI32 h4]
  | Grid2D d =>
      simp only [GridLayer.serialize, hs, GridLayerStorage.serialize,
        List.append_assoc, List.cons_append, List.nil_append]
      simp only [TileCoordsLayer.deserialize, Json.asObj, Option.some_bind,
        TileCoordsLayer.deserializeFields, reqField]
      simp only [getField, String.reduceEq, reduceIte]
      simp [decStr, decF32, decI32_encI32 h1, decI32_encI32 h2,
        decI32_encI32 h3, decI32_encI32 h4]

set_option maxHeartbeats 1600000 in
theorem tile_deserialize_entity (l : EntityLayer) (h : l.wf) :
    TileLayer.deserialize (EntityLayer.serialize l) = none := by
  obtain ⟨h1, h2, h3, h4, _⟩ := h
  simp only [EntityLayer.serialize]
  simp only [TileLayer.deserialize, Json.asObj, Option.some_bind,
    TileLayer.deserializeFields, reqField]
  simp only [getField, String.reduceEq, reduceIte]
  simp [decStr, decF32, decI32_encI32 h1, decI32_encI32 h2,
    decI32_encI32 h3, decI32_encI32 h4]

set_option maxHeartbeats 1600000 in
theorem tileCoords_deserialize_entity (l : EntityLayer) (h : l.wf) :
    TileCoordsLayer.deserialize (EntityLayer.serialize l) = none := by
  obtain ⟨h1, h2, h3, h4, _⟩ := h
  simp only [EntityLayer.serialize]
  simp only [TileCoordsLayer.deserialize, Json.asObj, Option.some_bind,
    TileCoordsLayer.deserializeFields, reqField]
  simp only [getField, String.reduceEq, reduceIte]
  simp [decStr, decF32, decI32_encI32 h1, decI32_encI32 h2,
    decI32_encI32 h3, decI32_encI32 h4]

set_option maxHeartbeats 1600000 in
theorem grid_deserialize_entity (l : EntityLayer) (h : l.wf) :
    GridLayer.deserialize (EntityLayer.serialize l) = none := by
  obtain ⟨h1, h2, h3, h4, _⟩ := h
  simp only [EntityLayer.serialize]
  simp only [GridLayer.deserialize, Json.asObj, Option.some_bind,
    GridLayer.deserializeFields, reqField]
  simp only [GridLayerStorage.deserialize, findField, List.mem_cons,
    List.mem_singleton, List.not_mem_nil, String.reduceEq, or_self, or_false,
    false_or, reduceIte, getField]
  simp [decStr, decF32, decI32_encI32 h1, decI32_encI32 h2,
    decI32_encI32 h3, decI32_encI32 h4]

set_option maxHeartbeats 1600000 in
theorem tile_deserialize_decal (l : DecalLayer) (h : l.wf) :
    TileLayer.deserialize (DecalLayer.serialize l) = none := by
  obtain ⟨h1, h2, h3, h4⟩ := h
  simp only [DecalLayer.serialize]
  simp only [TileLayer.deserialize, Json.asObj, Option.some_bind,
    TileLayer.deserializeFields, reqField]
  simp only [getField, String.reduceEq, reduceIte]
  simp [decStr, decF32, decI32_encI32 h1, decI32_encI32 h2,
    decI32_encI32 h3, decI32_encI32 h4]

set_option maxHeartbeats 1600000 in
theorem tileCoords_deserialize_decal (l : DecalLayer) (h : l.wf) :
    TileCoordsLayer.deserialize (DecalLayer.serialize l) = none := by
  obtain ⟨h1, h2, h3, h4⟩ := h
  simp only [DecalLayer.serialize]
  simp only [TileCoordsLayer.deserialize, Json.asObj, Option.some_bind,
    TileCoordsLayer.deserializeFields, reqField]
  simp only [getField, String.reduceEq, reduceIte]
  simp [decStr, decF32, decI32_encI32 h1, decI32_encI32 h2,
    decI32_encI32 h3, decI32_encI32 h4]

set_option maxHeartbeats 1600000 in
theorem grid_deserialize_decal (l : DecalLayer) (h : l.wf) :
    GridLayer.deserialize (DecalLayer.serialize l) = none := by
  obtain ⟨h1, h2, h3, h4⟩ := h
  simp only [DecalLayer.serialize]
  simp only [GridLayer.deserialize, Json.asObj, Option.some_bind,
    GridLayer.deserializeFields, reqField]
  simp only [GridLayerStorage.deserialize, findField, List.mem_cons,
    List.mem_singleton, List.not_mem_nil, String.reduceEq, or_self, or_false,
    false_or, reduceIte, getField]
  simp [decStr, decF32, decI32_encI32 h1, decI32_encI32 h2,
    decI32_encI32 h3, decI32_encI32 h4]

set_option maxHeartbeats 1600000 in
theorem entity_deserialize_decal (l : DecalLayer) (h : l.wf) :
    EntityLayer.deserialize (DecalLayer.serialize l) = none := by
  obtain ⟨h1, h2, h3, h4⟩ := h
  simp only [DecalLayer.serialize]
  simp only [EntityLayer.deserialize, Json.asObj, Option.some_bind,
    EntityLayer.deserializeFields, reqField]
  simp only [getField, String.reduceEq, reduceIte]
  simp [decStr, decF32, decI32_encI32 h1, decI32_encI32 h2,
    decI32_encI32 h3, decI32_encI32 h4]

/-- The untagged `Layer` decoder inverts the serializer on well-formed
layers: variants tried before the encoded one all fail, and the encoded
variant decodes back to the input. -/
theorem layer_roundtrip (la : Layer) (h : la.wf) :
    Layer.deserialize (Layer.serialize la) = some la := by
  cases la with
  | Tile l =>
      simp [Layer.deserialize, Layer.serialize, tileLayer_roundtrip l h]
  | TileCoords l =>
      simp [Layer.deserialize, Layer.serialize,
        tile_deserialize_tileCoords l h, tileCoordsLayer_roundtrip l h]
  | Grid l =>
      simp [Layer.deserialize, Layer.serialize, tile_deserialize_grid l h,
        tileCoords_deserialize_grid l h, gridLayer_roundtrip l h]
  | Entity l =>
      simp [Layer.deserialize, Layer.serialize, tile_deserialize_entity l h,
        tileCoords_deserialize_entity l h, grid_deserialize_entity l h,
        entityLayer_roundtrip l h]
  | Decal l =>
      simp [Layer.deserialize, Layer.serialize, tile_deserialize_decal l h,
        tileCoords_deserialize_decal l h, grid_deserialize_decal l h,
        entity_deserialize_decal l h, decalLayer_roundtrip l h]

/-- Serializing a well-formed `Level` and re-parsing the emitted value tree
returns exactly the original level. -/
theorem level_roundtrip (l : Level) (h : l.wf) :
    Level.from_json (Level.to_json l) = some l := by
  have hv : decMap Value.deserialize (encMap Value.serialize l.values) =
      some l.values :=
    decMap_encMap fun kv _ => value_roundtrip kv.2
  have hl : decList Layer.deserialize (encList Layer.serialize l.layers) =
      some l.layers :=
    decList_encList fun la hla => layer_roundtrip la (h la hla)
  simp only [Level.to_json]
  simp only [Level.from_json, Json.asObj, Option.some_bind,
    Level.deserializeFields, reqField]
  simp only [getField, String.reduceEq, reduceIte]
  simp [decStr, decF32, hv, hl]

/-! ## Round trips for the project-side codecs -/

theorem exportMode_roundtrip (m : ExportMode) :
    ExportMode.deserialize m.serialize = some m := by
  cases m <;> simp [ExportMode.serialize, ExportMode.deserialize]

theorem arrayMode_roundtrip (m : ArrayMode) :
    ArrayMode.deserialize m.serialize = some m := by
  cases m <;> simp [ArrayMode.serialize, ArrayMode.deserialize]

set_option maxHeartbeats 1600000 in
theorem valueTemplate_roundtrip (vt : ValueTemplate) (h : vt.wf) :
    ValueTemplate.deserialize (ValueTemplate.serialize vt) = some vt := by
  cases vt with
  | Boolean t =>
      simp only [ValueTemplate.serialize, BooleanValueTemplate.serializeFields]
      simp only [ValueTemplate.deserialize, Json.asObj, Option.some_bind,
        ValueTemplate.deserializeFields, BooleanValueTemplate.deserialize,
        reqField]
      simp only [getField, String.reduceEq, reduceIte]
      simp [decStr, decBool]
  | Color t =>
      simp only [ValueTemplate.serialize, ColorValueTemplate.serializeFields]
      simp only [ValueTemplate.deserialize, Json.asObj, Option.some_bind,
        ValueTemplate.deserializeFields, ColorValueTemplate.deserialize,
        reqField]
      simp only [getField, String.reduceEq, reduceIte]
      simp [decStr, decBool]
  | Enum t =>
      simp only [ValueTemplate.serialize, EnumValueTemplate.serializeFields]
      simp only [ValueTemplate.deserialize, Json.asObj, Option.some_bind,
        ValueTemplate.deserializeFields, EnumValueTemplate.deserialize,
        reqField]
      simp only [getField, String.reduceEq, reduceIte]
      simp [decStr, decI32_encI32 h, decList_str]
  | Integer t =>
      simp only [ValueTemplate.serialize, IntegerValueTemplate.serializeFields]
      simp only [ValueTemplate.deserialize, Json.asObj, Option.some_bind,
        ValueTemplate.deserializeFields, IntegerValueTemplate.deserialize,
        reqField]
      simp only [getField, String.reduceEq, reduceIte]
      simp [decStr, decBool, decI32_encI32 h.1, decI32_encI32 h.2.1,
        decI32_encI32 h.2.2]
  | Float t =>
      simp only [ValueTemplate.serialize, FloatValueTemplate.serializeFields]
      simp only [ValueTemplate.deserialize, Json.asObj, Option.some_bind,
        ValueTemplate.deserializeFields, FloatValueTemplate.deserialize,
        reqField]
      simp only [getField, String.reduceEq, reduceIte]
      simp [decStr, decBool, decF32]
  | String t =>
      simp only [ValueTemplate.serialize, StringValueTemplate.serializeFields]
      simp only [ValueTemplate.deserialize, Json.asObj, Option.some_bind,
        ValueTemplate.deserializeFields, StringValueTemplate.deserialize,
        reqField]
      simp only [getField, String.reduceEq, reduceIte]
      simp [decStr, decBool, decI32_encI32 h]
  | Text t =>
      simp only [ValueTemplate.serialize, TextValueTemplate.serializeFields]
      simp only [ValueTemplate.deserialize, Json.asObj, Option.some_bind,
        ValueTemplate.deserializeFields, TextValueTemplate.deserialize,
        reqField]
      simp only [getField, String.reduceEq, reduceIte]
      simp [decStr]

set_option maxHeartbeats 1600000 in
theorem tileLayerTemplate_roundtrip (t : TileLayerTemplate)
    (h : t.grid_size.wfI) :
    TileLayerTemplate.deserialize (TileLayerTemplate.serialize t) = some t := by
  simp only [TileLayerTemplate.serialize]
  simp only [TileLayerTemplate.deserialize, Json.asObj, Option.some_bind,
    TileLayerTemplate.deserializeFields, reqField]
  simp only [getField, String.reduceEq, reduceIte]
  simp [decStr, decVec2_int h, exportMode_roundtrip, arrayMode_roundtrip]

set_option maxHeartbeats 1600000 in
theorem gridLayerTemplate_roundtrip (t : GridLayerTemplate)
    (h : t.grid_size.wfI) :
    GridLayerTemplate.deserialize (GridLayerTemplate.serialize t) = some t := by
  simp only [GridLayerTemplate.serialize]
  simp only [GridLayerTemplate.deserialize, Json.asObj, Option.some_bind,
    GridLayerTemplate.deserializeFields, reqField]
  simp only [getField, String.reduceEq, reduceIte]
  simp [decStr, decVec2_int h, arrayMode_roundtrip, decMap_str]

set_option maxHeartbeats 1600000 in
theorem entityLayerTemplate_roundtrip (t : EntityLayerTemplate)
    (h : t.grid_size.wfI) :
    EntityLayerTemplate.deserialize (EntityLayerTemplate.serialize t) =
      some t := by
  simp only [EntityLayerTemplate.serialize]
  simp only [EntityLayerTemplate.deserialize, Json.asObj, Option.some_bind,
    EntityLayerTemplate.deserializeFields, reqField]
  simp only [getField, String.reduceEq, reduceIte]
  simp [decStr, decVec2_int h, decList_str]

set_option maxHeartbeats 1600000 in
theorem decalLayerTemplate_roundtrip (t : DecalLayerTemplate)
    (h1 : t.grid_size.wfI) (h2 : ∀ v ∈ t.values, v.wf) :
    DecalLayerTemplate.deserialize (DecalLayerTemplate.serialize t) =
      some t := by
  have hv : decList ValueTemplate.deserialize
      (encList ValueTemplate.serialize t.values) = some t.values :=
    decList_encList fun v hv => valueTemplate_roundtrip v (h2 v hv)
  simp only [DecalLayerTemplate.serialize]
  simp only [DecalLayerTemplate.deserialize, Json.asObj, Option.some_bind,
    DecalLayerTemplate.deserializeFields, reqField]
  simp only [getField, String.reduceEq, reduceIte]
  simp [decStr, decBool, decVec2_int h1, hv]

theorem tileLT_on_grid (t : GridLayerTemplate) :
    TileLayerTemplate.deserialize (GridLayerTemplate.serialize t) = none := by
  simp [GridLayerTemplate.serialize, TileLayerTemplate.deserialize,
    Json.asObj, TileLayerTemplate.deserializeFields, getField]

theorem tileLT_on_entity (t : EntityLayerTemplate) :
    TileLayerTemplate.deserialize (EntityLayerTemplate.serialize t) = none := by
  simp [EntityLayerTemplate.serialize, TileLayerTemplate.deserialize,
    Json.asObj, TileLayerTemplate.deserializeFields, getField]

theorem tileLT_on_decal (t : DecalLayerTemplate) :
    TileLayerTemplate.deserialize (DecalLayerTemplate.serialize t) = none := by
  simp [DecalLayerTemplate.serialize, TileLayerTemplate.deserialize,
    Json.asObj, TileLayerTemplate.deserializeFields, getField]

theorem gridLT_on_entity (t : EntityLayerTemplate) :
    GridLayerTemplate.deserialize (EntityLayerTemplate.serialize t) = none := by
  simp [EntityLayerTemplate.serialize, GridLayerTemplate.deserialize,
    Json.asObj, GridLayerTemplate.deserializeFields, getField]

theorem gridLT_on_decal (t : DecalLayerTemplate) :
    GridLayerTemplate.deserialize (DecalLayerTemplate.serialize t) = none := by
  simp [DecalLayerTemplate.serialize, GridLayerTemplate.deserialize,
    Json.asObj, GridLayerTemplate.deserializeFields, getField]

theorem entityLT_on_decal (t : DecalLayerTemplate) :
    EntityLayerTemplate.deserialize (DecalLayerTemplate.serialize t) = none := by
  simp [DecalLayerTemplate.serialize, EntityLayerTemplate.deserialize,
    Json.asObj, EntityLayerTemplate.deserializeFields, getField]

theorem layerTemplate_roundtrip (lt : LayerTemplate) (h : lt.wf) :
    LayerTemplate.deserialize (LayerTemplate.serialize lt) = some lt := by
  cases lt with
  | Tile t =>
      simp [LayerTemplate.deserialize, LayerTemplate.serialize,
        tileLayerTemplate_roundtrip t h]
  | Grid t =>
      simp [LayerTemplate.deserialize, LayerTemplate.serialize,
        tileLT_on_grid t, gridLayerTemplate_roundtrip t h]
  | Entity t =>
      simp [LayerTemplate.deserialize, LayerTemplate.serialize,
        tileLT_on_entity t, gridLT_on_entity t,
        entityLayerTemplate_roundtrip t h]
  | Decal t =>
      simp [LayerTemplate.deserialize, LayerTemplate.serialize,
        tileLT_on_decal t, gridLT_on_decal t, entityLT_on_decal t,
        decalLayerTemplate_roundtrip t h.1 h.2]

theorem shape_roundtrip (s : Shape) :
    Shape.deserialize (Shape.serialize s) = some s := by
  simp only [Shape.serialize]
  simp only [Shape.deserialize, Json.asObj, Option.some_bind,
    Shape.deserializeFields, reqField]
  simp only [getField, String.reduceEq, reduceIte]
  simp [decStr, decList_vec2num]

set_option maxHeartbeats 1600000 in
theorem entityTemplate_roundtrip (t : EntityTemplate) (h : t.wf) :
    EntityTemplate.deserialize (EntityTemplate.serialize t) = some t := by
  obtain ⟨h1, h2, h3, h4⟩ := h
  have hv : decList ValueTemplate.deserialize
      (encList ValueTemplate.serialize t.values) = some t.values :=
    decList_encList fun v hv => valueTemplate_roundtrip v (h4 v hv)
  simp only [EntityTemplate.serialize, List.append_assoc, List.cons_append,
    List.nil_append]
  simp only [EntityTemplate.deserialize, Json.asObj, Option.some_bind,
    EntityTemplate.deserializeFields, EntityTemplate.deserializeA,
    EntityTemplate.deserializeB, EntityTemplate.deserializeC, reqField,
    optJField]
  simp only [getField, String.reduceEq, reduceIte, ne_eq, not_false_eq_true,
    getField_optField_append_self, getField_optField_append_ne,
    getField_optField_self, getField_optField_ne, decOpt_str]
  simp [decStr, decBool, decF32, decI32_encI32 h1, decI32_encI32 h2,
    decI32_encI32 h3, hv, shape_roundtrip, decVec2_num, decList_str]

theorem tileset_roundtrip (t : Tileset) (h : t.wf) :
    Tileset.deserialize (Tileset.serialize t) = some t := by
  obtain ⟨h1, h2, h3, h4⟩ := h
  simp only [Tileset.serialize]
  simp only [Tileset.deserialize, Json.asObj, Option.some_bind,
    Tileset.deserializeFields, reqField]
  simp only [getField, String.reduceEq, reduceIte]
  simp [decStr, decI32_encI32 h1, decI32_encI32 h2, decI32_encI32 h3,
    decI32_encI32 h4]

set_option maxHeartbeats 1600000 in
theorem project_roundtrip (p : Project) (h : p.wf) :
    Project.from_json (Project.to_json p) = some p := by
  obtain ⟨h1, h2, h3, h4, h5, h6, h7, h8, h9⟩ := h
  have hlv : decList ValueTemplate.deserialize
      (encList ValueTemplate.serialize p.level_values) = some p.level_values :=
    decList_encList fun v hv => valueTemplate_roundtrip v (h6 v hv)
  have hlt : decList LayerTemplate.deserialize
      (encList LayerTemplate.serialize p.layers) = some p.layers :=
    decList_encList fun t ht => layerTemplate_roundtrip t (h7 t ht)
  have het : decList EntityTemplate.deserialize
      (encList EntityTemplate.serialize p.entities) = some p.entities :=
    decList_encList fun t ht => entityTemplate_roundtrip t (h8 t ht)
  have hts : decList Tileset.deserialize
      (encList Tileset.serialize p.tilesets) = some p.tilesets :=
    decList_encList fun t ht => tileset_roundtrip t (h9 t ht)
  have hps : decList decStr (encList Json.str p.level_paths) =
      some p.level_paths :=
    decList_encList fun s _ => rfl
  have htg : decList decStr (encList Json.str p.entity_tags) =
      some p.entity_tags :=
    decList_encList fun s _ => rfl
  simp only [Project.to_json]
  simp only [Project.from_json, Json.asObj, Option.some_bind,
    Project.deserializeFields, Project.deserializeA, Project.deserializeB,
    reqField]
  simp only [getField, String.reduceEq, reduceIte]
  simp [decStr, decBool, decI32_encI32 h1, decVec2_int h2, decVec2_int h3,
    decVec2_int h4, decVec2_int h5, hlv, hlt, het, hts, hps, htg]

/-! ## Lemmas about the tile/grid decoder -/

theorem tileCoordsEntry_isSome_iff {gcw gch : Int} {e : List Int} :
    (tileCoordsEntry gcw gch e).isSome ↔ coordsEntryOk e := by
  cases e with
  | nil => simp [tileCoordsEntry, coordsEntryOk]
  | cons u rest =>
      by_cases hu : u = -1
      · simp [tileCoordsEntry, coordsEntryOk, hu]
      · cases rest with
        | nil => simp [tileCoordsEntry, coordsEntryOk, hu]
        | cons v r2 => simp [tileCoordsEntry, coordsEntryOk, hu]

theorem tileCoordsEntry_ok {gcw gch : Int} {e : List Int}
    (h : coordsEntryOk e) :
    tileCoordsEntry gcw gch e = some (coordsEntrySpec gcw gch e) := by
  cases e with
  | nil => simp [coordsEntryOk] at h
  | cons u rest =>
      by_cases hu : u = -1
      · subst hu
        simp [tileCoordsEntry, coordsEntrySpec]
      · cases rest with
        | nil => simp [coordsEntryOk, hu] at h
        | cons v r2 =>
            simp [tileCoordsEntry, coordsEntrySpec, hu]

theorem mem_of_mem_enum {α : Type} {l : List α} {p : ℕ × α}
    (h : p ∈ l.enum) : p.2 ∈ l := by
  have hm := List.enum_map_snd l
  rw [← hm]
  exact List.mem_map_of_mem _ h

theorem forall_enum_iff {α : Type} {l : List α} {P : α → Prop} :
    (∀ p ∈ l.enum, P p.2) ↔ ∀ a ∈ l, P a := by
  constructor
  · intro h a ha
    rw [← List.enum_map_snd l] at ha
    obtain ⟨p, hp, rfl⟩ := List.mem_map.1 ha
    exact h p hp
  · intro h p hp
    exact h p.2 (mem_of_mem_enum hp)

theorem tileLayer_unpack_data {tl : TileLayer} {d : List Int}
    (hd : tl.data = .Data d) (hW : tl.grid_cells_x ≠ 0) :
    tl.unpack = some (d.enum.map fun p =>
      { id := if p.2 = -1 then none else some p.2,
        grid_position := ⟨(p.1 : Int).tmod tl.grid_cells_x,
                          (p.1 : Int).tdiv tl.grid_cells_x⟩,
        pixel_position := ⟨(p.1 : Int).tmod tl.grid_cells_x * tl.grid_cell_width,
                           (p.1 : Int).tdiv tl.grid_cells_x * tl.grid_cell_height⟩ }) := by
  simp only [TileLayer.unpack, hd]
  exact mapMo_eq_map_of_forall fun p _ => by simp [hW]

theorem tileLayer_unpack_data2D {tl : TileLayer} {rows : List (List Int)}
    (hd : tl.data = .Data2D rows) :
    tl.unpack = some ((rows.enum.map fun py =>
      py.2.enum.map fun px =>
        ({ id := if px.2 = -1 then none else some px.2,
           grid_position := ⟨(px.1 : Int), (py.1 : Int)⟩,
           pixel_position := ⟨(px.1 : Int) * tl.grid_cell_width,
                              (py.1 : Int) * tl.grid_cell_height⟩ } : Tile)).flatten) := by
  simp only [TileLayer.unpack, hd]

theorem gridLayer_unpack_grid {gl : GridLayer} {d : List String}
    (hd : gl.data = .Grid d) (hW : gl.grid_cells_x ≠ 0) :
    gl.unpack = some (d.enum.map fun p =>
      { value := p.2,
        grid_position := ⟨(p.1 : Int).tmod gl.grid_cells_x,
                          (p.1 : Int).tdiv gl.grid_cells_x⟩,
        pixel_position := ⟨(p.1 : Int).tmod gl.grid_cells_x * gl.grid_cell_width,
                           (p.1 : Int).tdiv gl.grid_cells_x * gl.grid_cell_height⟩ }) := by
  simp only [GridLayer.unpack, hd]
  exact mapMo_eq_map_of_forall fun p _ => by simp [hW]

theorem gridLayer_unpack_grid2D {gl : GridLayer} {rows : List (List String)}
    (hd : gl.data = .Grid2D rows) :
    gl.unpack = some ((rows.enum.map fun py =>
      py.2.enum.map fun px =>
        ({ value := px.2,
           grid_position := ⟨(px.1 : Int), (py.1 : Int)⟩,
           pixel_position := ⟨(px.1 : Int) * gl.grid_cell_width,
                              (py.1 : Int) * gl.grid_cell_height⟩ } : GridCell)).flatten) := by
  simp only [GridLayer.unpack, hd]

theorem tileCoordsLayer_unpack_flat {cl : TileCoordsLayer}
    {d : List (List Int)} (hd : cl.data = .DataCoords d)
    (hW : cl.grid_cells_x ≠ 0) (hok : ∀ e ∈ d, coordsEntryOk e) :
    cl.unpack = some (d.enum.map fun p =>
      { grid_coords :=
          (coordsEntrySpec cl.grid_cell_width cl.grid_cell_height p.2).1,
        pixel_coords :=
          (coordsEntrySpec cl.grid_cell_width cl.grid_cell_height p.2).2,
        grid_position := ⟨(p.1 : Int).tmod cl.grid_cells_x,
                          (p.1 : Int).tdiv cl.grid_cells_x⟩,
        pixel_position := ⟨(p.1 : Int).tmod cl.grid_cells_x * cl.grid_cell_width,
                           (p.1 : Int).tdiv cl.grid_cells_x * cl.grid_cell_height⟩ }) := by
  simp only [TileCoordsLayer.unpack, hd]
  apply mapMo_eq_map_of_forall
  intro p hp
  have he : tileCoordsEntry cl.grid_cell_width cl.grid_cell_height p.2 =
      some (coordsEntrySpec cl.grid_cell_width cl.grid_cell_height p.2) :=
    tileCoordsEntry_ok (hok p.2 (mem_of_mem_enum hp))
  simp [hW, he]

theorem mapMo_map_flatten {α β : Type} {f : α → Option (List β)}
    {g : α → List β} {l : List α} (h : ∀ a ∈ l, f a = some (g a)) :
    (mapMo l f).map List.flatten = some ((l.map g).flatten) := by
  rw [mapMo_eq_map_of_forall h]
  rfl

theorem tileCoordsLayer_unpack_2D {cl : TileCoordsLayer}
    {rows : List (List (List Int))} (hd : cl.data = .DataCoords2D rows)
    (hok : ∀ e ∈ rows.flatten, coordsEntryOk e) :
    cl.unpack = some ((rows.enum.map fun py =>
      py.2.enum.map fun px =>
        ({ grid_coords :=
             (coordsEntrySpec cl.grid_cell_width cl.grid_cell_height px.2).1,
           pixel_coords :=
             (coordsEntrySpec cl.grid_cell_width cl.grid_cell_height px.2).2,
           grid_position := ⟨(px.1 : Int), (py.1 : Int)⟩,
           pixel_position := ⟨(px.1 : Int) * cl.grid_cell_width,
                              (py.1 : Int) * cl.grid_cell_height⟩ } : TileCoords)).flatten) := by
  simp only [TileCoordsLayer.unpack, hd]
  apply mapMo_map_flatten
  intro py hpy
  apply mapMo_eq_map_of_forall
  intro px hpx
  have hmem : px.2 ∈ rows.flatten :=
    List.mem_flatten.2 ⟨py.2, mem_of_mem_enum hpy, mem_of_mem_enum hpx⟩
  have he : tileCoordsEntry cl.grid_cell_width cl.grid_cell_height px.2 =
      some (coordsEntrySpec cl.grid_cell_width cl.grid_cell_height px.2) :=
    tileCoordsEntry_ok (hok px.2 hmem)
  rw [he]
  rfl

/-! ## Lemmas about uniform row-major flattening (tileset slicing) -/

theorem flatten_uniform_length {α : Type} (rows : List (List α)) (W : ℕ)
    (h : ∀ r ∈ rows, r.length = W) :
    rows.flatten.length = rows.length * W := by
  induction rows with
  | nil => simp
  | cons r rest ih =>
      have hr := h r (List.mem_cons_self r rest)
      have hrest := ih fun q hq => h q (List.mem_cons_of_mem r hq)
      simp only [List.flatten_cons, List.length_append, List.length_cons, hr,
        hrest]
      ring

theorem flatten_uniform_get {α : Type} (rows : List (List α)) (W x : ℕ)
    (h : ∀ r ∈ rows, r.length = W) (hx : x < W) :
    ∀ y, rows.flatten[y * W + x]? = rows[y]?.bind fun r => r[x]? := by
  induction rows with
  | nil => intro y; simp
  | cons r rest ih =>
      intro y
      have hr := h r (List.mem_cons_self r rest)
      have hrest := ih fun q hq => h q (List.mem_cons_of_mem r hq)
      cases y with
      | zero =>
          have hlt : x < r.length := by omega
          simp only [Nat.zero_mul, Nat.zero_add, List.flatten_cons]
          rw [List.getElem?_append_left hlt]
          simp
      | succ y =>
          have hge : r.length ≤ (y + 1) * W + x := by
            rw [hr]
            calc W ≤ y * W + W + x := by omega
            _ = (y + 1) * W + x := by ring
          simp only [List.flatten_cons]
          rw [List.getElem?_append_right hge]
          have harith : (y + 1) * W + x - r.length = y * W + x := by
            rw [hr]
            have : (y + 1) * W = y * W + W := by ring
            omega
          rw [harith, hrest y]
          simp

/-! ## Further enumeration helpers -/

theorem enum_getElem {α : Type} (l : List α) (i : ℕ) :
    l.enum[i]? = l[i]?.map fun a => (i, a) := by
  rw [List.enum_eq_enumFrom, List.getElem?_enumFrom]
  simp

theorem enum_map_comp_snd {α β : Type} (l : List α) (f : α → β) :
    (l.enum.map fun p => f p.2) = l.map f := by
  have hc : (fun p : ℕ × α => f p.2) = f ∘ Prod.snd := rfl
  rw [hc, ← List.map_map, List.enum_map_snd]

/-! ## The claims -/

/-- **C2**: each tile/grid storage variant serializes its payload under its
shape-specific field name followed by exactly the mode flags of that layer
kind — `Data`: exportMode 0, arrayMode 0; `Data2D`: 0, 1; `DataCoords`:
1, 0; `DataCoords2D`: 1, 1; `Grid`/`Grid2D`: only arrayMode 0/1 — and for
every storage value (well formed for the `i32` payloads), decoding the
emitted fields yields back the same storage, so the shape tag is
reproduced. -/
theorem c2_storage_mode_flags :
    (∀ d : List Int,
      TileLayerStorage.serialize (.Data d) =
        [("data", encList encI32 d),
         ("exportMode", .num 0), ("arrayMode", .num 0)]) ∧
    (∀ d : List (List Int),
      TileLayerStorage.serialize (.Data2D d) =
        [("data2D", encList (encList encI32) d),
         ("exportMode", .num 0), ("arrayMode", .num 1)]) ∧
    (∀ d : List (List Int),
      TileCoordsLayerStorage.serialize (.DataCoords d) =
        [("dataCoords", encList (encList encI32) d),
         ("exportMode", .num 1), ("arrayMode", .num 0)]) ∧
    (∀ d : List (List (List Int)),
      TileCoordsLayerStorage.serialize (.DataCoords2D d) =
        [("dataCoords2D", encList (encList (encList encI32)) d),
         ("exportMode", .num 1), ("arrayMode", .num 1)]) ∧
    (∀ d : List String,
      GridLayerStorage.serialize (.Grid d) =
        [("grid", encList Json.str d), ("arrayMode", .num 0)]) ∧
    (∀ d : List (List String),
      GridLayerStorage.serialize (.Grid2D d) =
        [("grid2D", encList (encList Json.str) d), ("arrayMode", .num 1)]) ∧
    (∀ s : TileLayerStorage, s.wf →
      TileLayerStorage.deserialize s.serialize = some s) ∧
    (∀ s : TileCoordsLayerStorage, s.wf →
      TileCoordsLayerStorage.deserialize s.serialize = some s) ∧
    (∀ s : GridLayerStorage,
      GridLayerStorage.deserialize s.serialize = some s) := by
  refine ⟨fun d => rfl, fun d => rfl, fun d => rfl, fun d => rfl,
    fun d => rfl, fun d => rfl, ?_, ?_, ?_⟩
  · exact tileLayerStorage_roundtrip
  · exact tileCoordsLayerStorage_roundtrip
  · exact gridLayerStorage_roundtrip

theorem c2_storage_mode_flags_witness :
    TileLayerStorage.deserialize
        (TileLayerStorage.serialize (.Data [1, -1])) = some (.Data [1, -1]) ∧
    TileLayerStorage.deserialize
        (TileLayerStorage.serialize (.Data2D [[2], [3]])) =
      some (.Data2D [[2], [3]]) ∧
    TileCoordsLayerStorage.deserialize
        (TileCoordsLayerStorage.serialize (.DataCoords [[0, 1], [-1]])) =
      some (.DataCoords [[0, 1], [-1]]) ∧
    TileCoordsLayerStorage.deserialize
        (TileCoordsLayerStorage.serialize (.DataCoords2D [[[0, 1]]])) =
      some (.DataCoords2D [[[0, 1]]]) ∧
    GridLayerStorage.deserialize
        (GridLayerStorage.serialize (.Grid ["0", "a"])) =
      some (.Grid ["0", "a"]) :=
  ⟨c2_storage_mode_flags.2.2.2.2.2.2.1 (.Data [1, -1])
     (by simp only [TileLayerStorage.wf]; decide),
   c2_storage_mode_flags.2.2.2.2.2.2.1 (.Data2D [[2], [3]])
     (by simp only [TileLayerStorage.wf]; decide),
   c2_storage_mode_flags.2.2.2.2.2.2.2.1 (.DataCoords [[0, 1], [-1]])
     (by simp only [TileCoordsLayerStorage.wf]; decide),
   c2_storage_mode_flags.2.2.2.2.2.2.2.1 (.DataCoords2D [[[0, 1]]])
     (by simp only [TileCoordsLayerStorage.wf]; decide),
   c2_storage_mode_flags.2.2.2.2.2.2.2.2 (.Grid ["0", "a"])⟩

/-- **C3**: for flat (1D) tile and grid storage of length `N` over a layer
with `grid_cells_x = W ≠ 0`, `unpack` yields exactly `N` records in index
order — record `i` has grid position `(i tmod W, i tdiv W)` (Rust's
truncating `%` and `/`) and pixel position scaled by the cell dimensions.
`N` is never compared against `grid_cells_x * grid_cells_y`: the statement
carries no hypothesis relating them, and `tileLayerA` in the witness has
`N = 6 ≠ 4`. -/
theorem c3_flat_unpack_formula :
    (∀ (tl : TileLayer) (d : List Int), tl.data = .Data d →
      tl.grid_cells_x ≠ 0 →
      tl.unpack.map List.length = some d.length ∧
      ∀ (i : ℕ) (v : Int), d[i]? = some v →
        (tl.unpack.bind fun ts => ts[i]?) = some
          { id := if v = -1 then none else some v,
            grid_position := ⟨(i : Int).tmod tl.grid_cells_x,
                              (i : Int).tdiv tl.grid_cells_x⟩,
            pixel_position :=
              ⟨(i : Int).tmod tl.grid_cells_x * tl.grid_cell_width,
               (i : Int).tdiv tl.grid_cells_x * tl.grid_cell_height⟩ }) ∧
    (∀ (gl : GridLayer) (d : List String), gl.data = .Grid d →
      gl.grid_cells_x ≠ 0 →
      gl.unpack.map List.length = some d.length ∧
      ∀ (i : ℕ) (v : String), d[i]? = some v →
        (gl.unpack.bind fun cs => cs[i]?) = some
          { value := v,
            grid_position := ⟨(i : Int).tmod gl.grid_cells_x,
                              (i : Int).tdiv gl.grid_cells_x⟩,
            pixel_position :=
              ⟨(i : Int).tmod gl.grid_cells_x * gl.grid_cell_width,
               (i : Int).tdiv gl.grid_cells_x * gl.grid_cell_height⟩ }) := by
  constructor
  · intro tl d hd hW
    rw [tileLayer_unpack_data hd hW]
    constructor
    · simp
    · intro i v hv
      simp only [Option.some_bind, List.getElem?_map, enum_getElem, hv]
      rfl
  · intro gl d hd hW
    rw [gridLayer_unpack_grid hd hW]
    constructor
    · simp
    · intro i v hv
      simp only [Option.some_bind, List.getElem?_map, enum_getElem, hv]
      rfl

theorem c3_flat_unpack_formula_witness :
    tileLayerA.unpack.map List.length = some 6 ∧
    (tileLayerA.unpack.bind fun ts => ts[5]?) = some
      { id := some 5, grid_position := ⟨1, 1⟩,
        pixel_position := ⟨16, 16⟩ } ∧
    gridLayerA.unpack.map List.length = some 3 ∧
    (gridLayerA.unpack.bind fun cs => cs[2]?) = some
      { value := "0", grid_position := ⟨0, 1⟩, pixel_position := ⟨0, 8⟩ } := by
  have h1 := (c3_flat_unpack_formula.1 tileLayerA [0, 0, 0, 0, 0, 5] rfl
    (by decide))
  have h2 := (c3_flat_unpack_formula.2 gridLayerA ["0", "a", "0"] rfl
    (by decide))
  refine ⟨h1.1, ?_, h2.1, ?_⟩
  · have := h1.2 5 5 (by decide)
    rw [this]
    rfl
  · have := h2.2 2 "0" (by decide)
    rw [this]
    rfl

/-- **C4**: for tile layers with ID storage (flat or 2D, flattened in row
order), `unpack` maps a raw value of `-1` to `id = none` and any other
value `v` to `id = some v`, preserving order; the witness shows the flat
array `[-1, 3, -1]` unpacking to ids `none, some 3, none`. -/
theorem c4_id_sentinel (tl : TileLayer) (hW : tl.grid_cells_x ≠ 0) :
    tl.unpack.map (List.map Tile.id) =
      some (tl.rawData.map fun v => if v = -1 then none else some v) := by
  cases htl : tl.data with
  | Data d =>
      rw [tileLayer_unpack_data htl hW]
      simp only [TileLayer.rawData, htl, Option.map_some', List.map_map]
      rw [← enum_map_comp_snd d fun v => if v = -1 then none else some v]
      rfl
  | Data2D rows =>
      rw [tileLayer_unpack_data2D htl]
      simp only [TileLayer.rawData, htl, Option.map_some', List.map_flatten,
        List.map_map]
      congr 1
      congr 1
      rw [← enum_map_comp_snd rows
        (List.map fun v => if v = -1 then none else some v)]
      apply List.map_congr_left
      intro py _
      rw [← enum_map_comp_snd py.2 fun v => if v = -1 then none else some v]
      simp only [Function.comp_apply, List.map_map]
      rfl

theorem c4_id_sentinel_witness :
    tileLayerB.unpack.map (List.map Tile.id) =
      some [none, some 3, none] := by
  rw [c4_id_sentinel tileLayerB (by decide)]
  rfl

/-- **C5**: a tile-coords layer decodes each raw entry with first element
`-1` to absent grid-coords and pixel-coords, and an entry `[u, v, ...]`
with `u ≠ -1` to grid-coords `(u, v)` and pixel-coords
`(u × cellWidth, v × cellHeight)`, in storage order (the witness includes
`[2, 1]` with cell size 8 giving pixel-coords `(16, 8)`). -/
theorem c5_coords_sentinel (cl : TileCoordsLayer) (hW : cl.grid_cells_x ≠ 0)
    (hok : ∀ e ∈ cl.rawEntries, coordsEntryOk e) :
    cl.unpack.map (List.map fun t => (t.grid_coords, t.pixel_coords)) =
      some (cl.rawEntries.map
        (coordsEntrySpec cl.grid_cell_width cl.grid_cell_height)) := by
  cases hd : cl.data with
  | DataCoords d =>
      have hok2 : ∀ e ∈ d, coordsEntryOk e := by
        intro e he
        exact hok e (by simp [TileCoordsLayer.rawEntries, hd, he])
      rw [tileCoordsLayer_unpack_flat hd hW hok2]
      simp only [TileCoordsLayer.rawEntries, hd, Option.map_some',
        List.map_map]
      rw [← enum_map_comp_snd d
        (coordsEntrySpec cl.grid_cell_width cl.grid_cell_height)]
      rfl
  | DataCoords2D rows =>
      have hok2 : ∀ e ∈ rows.flatten, coordsEntryOk e := by
        intro e he
        exact hok e (by simp [TileCoordsLayer.rawEntries, hd, he])
      rw [tileCoordsLayer_unpack_2D hd hok2]
      simp only [TileCoordsLayer.rawEntries, hd, Option.map_some',
        List.map_flatten, List.map_map]
      congr 1
      congr 1
      rw [← enum_map_comp_snd rows
        (List.map (coordsEntrySpec cl.grid_cell_width cl.grid_cell_height))]
      apply List.map_congr_left
      intro py _
      rw [← enum_map_comp_snd py.2
        (coordsEntrySpec cl.grid_cell_width cl.grid_cell_height)]
      simp only [Function.comp_apply, List.map_map]
      rfl

theorem c5_coords_sentinel_witness :
    tileCoordsLayerA.unpack.map
        (List.map fun t => (t.grid_coords, t.pixel_coords)) =
      some [(some ⟨2, 1⟩, some ⟨16, 8⟩), (none, none), (none, none),
            (some ⟨0, 3⟩, some ⟨0, 24⟩)] := by
  rw [c5_coords_sentinel tileCoordsLayerA (by decide) (by decide)]
  rfl

/-- **C9**: `TileCoordsLayer::unpack` reads the second element of an entry
whenever the first is not `-1`; with the out-of-bounds accesses embedded as
`Option` (and the zero-divisor case excluded by `grid_cells_x ≠ 0`, which
claim C10 treats), it is total exactly when every entry has first element
`-1` or length at least two.  The witness exercises the entry `[5]`, whose
index-1 access is out of bounds. -/
theorem c9_coords_indexing (cl : TileCoordsLayer)
    (hW : cl.grid_cells_x ≠ 0) :
    (cl.unpack).isSome ↔ ∀ e ∈ cl.rawEntries, coordsEntryOk e := by
  cases hd : cl.data with
  | DataCoords d =>
      simp only [TileCoordsLayer.unpack, hd, TileCoordsLayer.rawEntries]
      rw [mapMo_isSome_iff]
      simp only [hW, if_neg, reduceIte, Option.isSome_map',
        tileCoordsEntry_isSome_iff]
      exact forall_enum_iff
  | DataCoords2D rows =>
      simp only [TileCoordsLayer.unpack, hd, TileCoordsLayer.rawEntries,
        Option.isSome_map']
      rw [mapMo_isSome_iff]
      simp only [mapMo_isSome_iff, Option.isSome_map',
        tileCoordsEntry_isSome_iff, forall_enum_iff]
      refine Iff.trans (@forall_enum_iff (List (List Int)) rows
        (fun r => ∀ e ∈ r, coordsEntryOk e)) ?_
      constructor
      · intro h e he
        obtain ⟨r, hr, her⟩ := List.mem_flatten.1 he
        exact h r hr e her
      · intro h r hr e her
        exact h e (List.mem_flatten.2 ⟨r, hr, her⟩)

theorem c9_coords_indexing_witness :
    ((tileCoordsLayerB.unpack).isSome ↔
      ∀ e ∈ tileCoordsLayerB.rawEntries, coordsEntryOk e) ∧
    tileCoordsLayerB.unpack = none :=
  ⟨c9_coords_indexing tileCoordsLayerB (by decide), rfl⟩

/-- **C10**: the flat (1D) unpack paths compute `i % grid_cells_x` and
`i / grid_cells_x` for every index with no guard in the source; with the
division embedded as guarded, they are total exactly when `grid_cells_x`
is nonzero or the data is empty, while the nested (2D) paths perform no
division and are total unconditionally (for the tile-coords layer the
entry accesses, claim C9's subject, are assumed in bounds). -/
theorem c10_division_guard :
    (∀ tl : TileLayer, (tl.unpack).isSome ↔
      (match tl.data with
       | .Data d => tl.grid_cells_x ≠ 0 ∨ d = []
       | .Data2D _ => True)) ∧
    (∀ gl : GridLayer, (gl.unpack).isSome ↔
      (match gl.data with
       | .Grid d => gl.grid_cells_x ≠ 0 ∨ d = []
       | .Grid2D _ => True)) ∧
    (∀ cl : TileCoordsLayer, (∀ e ∈ cl.rawEntries, coordsEntryOk e) →
      ((cl.unpack).isSome ↔
        (match cl.data with
         | .DataCoords d => cl.grid_cells_x ≠ 0 ∨ d = []
         | .DataCoords2D _ => True))) := by
  refine ⟨?_, ?_, ?_⟩
  · intro tl
    cases hd : tl.data with
    | Data d =>
        simp only [TileLayer.unpack, hd]
        rw [mapMo_isSome_iff]
        by_cases hW : tl.grid_cells_x = 0
        · simp only [hW, reduceIte, Option.isSome_none, Bool.false_eq_true]
          constructor
          · intro h
            right
            cases d with
            | nil => rfl
            | cons a rest =>
                exact absurd (h (0, a) (by simp [List.enum_cons])) (by simp)
          · intro h p hp
            rcases h with h | h
            · exact (h rfl).elim
            · subst h
              simp at hp
        · simp [hW]
    | Data2D rows =>
        simp [TileLayer.unpack, hd]
  · intro gl
    cases hd : gl.data with
    | Grid d =>
        simp only [GridLayer.unpack, hd]
        rw [mapMo_isSome_iff]
        by_cases hW : gl.grid_cells_x = 0
        · simp only [hW, reduceIte, Option.isSome_none, Bool.false_eq_true]
          constructor
          · intro h
            right
            cases d with
            | nil => rfl
            | cons a rest =>
                exact absurd (h (0, a) (by simp [List.enum_cons])) (by simp)
          · intro h p hp
            rcases h with h | h
            · exact (h rfl).elim
            · subst h
              simp at hp
        · simp [hW]
    | Grid2D rows =>
        simp [GridLayer.unpack, hd]
  · intro cl hok
    cases hd : cl.data with
    | DataCoords d =>
        have hok2 : ∀ e ∈ d, coordsEntryOk e := by
          intro e he
          exact hok e (by simp [TileCoordsLayer.rawEntries, hd, he])
        simp only [TileCoordsLayer.unpack, hd]
        rw [mapMo_isSome_iff]
        by_cases hW : cl.grid_cells_x = 0
        · simp only [hW, reduceIte, Option.isSome_none, Bool.false_eq_true]
          constructor
          · intro h
            right
            cases d with
            | nil => rfl
            | cons a rest =>
                exact absurd (h (0, a) (by simp [List.enum_cons])) (by simp)
          · intro h p hp
            rcases h with h | h
            · exact (h rfl).elim
            · subst h
              simp at hp
        · simp only [hW, reduceIte, Option.isSome_map',
            tileCoordsEntry_isSome_iff, forall_enum_iff]
          constructor
          · intro _
            exact Or.inl hW
          · intro _
            exact hok2
    | DataCoords2D rows =>
        have hok2 : ∀ e ∈ rows.flatten, coordsEntryOk e := by
          intro e he
          exact hok e (by simp [TileCoordsLayer.rawEntries, hd, he])
        simp only [TileCoordsLayer.unpack, hd, Option.isSome_map']
        rw [mapMo_isSome_iff]
        simp only [mapMo_isSome_iff, Option.isSome_map',
          tileCoordsEntry_isSome_iff, forall_enum_iff]
        constructor
        · intro _
          trivial
        · intro _ p hp e her
          exact hok2 e (List.mem_flatten.2 ⟨p.2, mem_of_mem_enum hp, her⟩)

theorem c10_division_guard_witness :
    (tileLayerA.unpack).isSome = true ∧
    (gridLayerA.unpack).isSome = true ∧
    (tileCoordsLayerA.unpack).isSome = true :=
  ⟨(c10_division_guard.1 tileLayerA).mpr (Or.inl (by decide)),
   (c10_division_guard.2.1 gridLayerA).mpr (Or.inl (by decide)),
   (c10_division_guard.2.2 tileCoordsLayerA (by decide)).mpr
     (Or.inl (by decide))⟩

theorem decOpt_none_eq {α : Type} {f : Json → Option α} {w : Option α}
    (h : decOpt f none = some w) : w = none := by
  simp only [decOpt, Option.some.injEq] at h
  exact h.symm

/-- **C8**: for every tileset and texture size, `tile_coords` (with the
zero-step division guarded) yields exactly
`(textureHeight div stepY) × (textureWidth div stepX)` origins, where
`stepX = tile_width + tile_separation_x` and
`stepY = tile_height + tile_separation_y` (truncating division), in
row-major order: the entry at flat index `y × tilesX + x` is the origin
`(x × stepX, y × stepY)`. -/
theorem c8_tileset_slicing (t : Tileset) (tw th : Int)
    (hsx : t.tile_width + t.tile_separation_x ≠ 0)
    (hsy : t.tile_height + t.tile_separation_y ≠ 0) :
    (t.tile_coords tw th).map List.length =
      some ((th.tdiv (t.tile_height + t.tile_separation_y)).toNat *
            (tw.tdiv (t.tile_width + t.tile_separation_x)).toNat) ∧
    ∀ x y : ℕ,
      x < (tw.tdiv (t.tile_width + t.tile_separation_x)).toNat →
      y < (th.tdiv (t.tile_height + t.tile_separation_y)).toNat →
      ((t.tile_coords tw th).bind fun cs =>
          cs[y * (tw.tdiv (t.tile_width + t.tile_separation_x)).toNat + x]?) =
        some ⟨(x : Int) * (t.tile_width + t.tile_separation_x),
              (y : Int) * (t.tile_height + t.tile_separation_y)⟩ := by
  have hguard : ¬(t.tile_width + t.tile_separation_x = 0 ∨
      t.tile_height + t.tile_separation_y = 0) := not_or.mpr ⟨hsx, hsy⟩
  have hrows : ∀ r ∈ (List.range
        (th.tdiv (t.tile_height + t.tile_separation_y)).toNat).map
        (fun (tile_y : Nat) => (List.range
            (tw.tdiv (t.tile_width + t.tile_separation_x)).toNat).map
          fun (tile_x : Nat) =>
            (⟨(tile_x : Int) * (t.tile_width + t.tile_separation_x),
              (tile_y : Int) * (t.tile_height + t.tile_separation_y)⟩ :
              Vec2 Int)),
      r.length = (tw.tdiv (t.tile_width + t.tile_separation_x)).toNat := by
    intro r hr
    obtain ⟨ty, _, rfl⟩ := List.mem_map.1 hr
    simp
  constructor
  · simp only [Tileset.tile_coords]
    rw [if_neg hguard]
    simp only [Option.map_some']
    rw [flatten_uniform_length _ _ hrows]
    simp
  · intro x y hx hy
    simp only [Tileset.tile_coords]
    rw [if_neg hguard]
    simp only [Option.some_bind]
    rw [flatten_uniform_get _ _ x hrows hx y]
    simp [List.getElem?_map, List.getElem?_range, hx, hy]

theorem c8_tileset_slicing_witness :
    (tilesetA.tile_coords 64 32).map List.length = some 8 ∧
    ((tilesetA.tile_coords 64 32).bind fun cs => cs[0]?) = some ⟨0, 0⟩ ∧
    ((tilesetA.tile_coords 64 32).bind fun cs => cs[1]?) = some ⟨16, 0⟩ ∧
    ((tilesetA.tile_coords 64 32).bind fun cs => cs[2]?) = some ⟨32, 0⟩ ∧
    ((tilesetA.tile_coords 64 32).bind fun cs => cs[3]?) = some ⟨48, 0⟩ := by
  have h := c8_tileset_slicing tilesetA 64 32 (by decide) (by decide)
  exact ⟨h.1, h.2 0 0 (by decide) (by decide), h.2 1 0 (by decide) (by decide),
    h.2 2 0 (by decide) (by decide), h.2 3 0 (by decide) (by decide)⟩

/-- **C6** counterexample: a decal object carrying `x`, `y` and `texture`
but no custom-values field is REJECTED by the decoder (it does not decode
with an empty values mapping, contrary to the claim). -/
theorem c6_decal_values_counterexample :
    Decal.deserialize (.obj [("x", .num 1), ("y", .num 2),
      ("texture", .str "a.png")]) = none := rfl

/-- **C6** (corrected): `Decal.values` is declared as a plain required
field in the source (not an `Option`, and with no `#[serde(default)]`), so
decoding a decal object that lacks the custom-values field fails rather
than defaulting to an empty mapping: whenever the `values` field is
absent, the decal deserializer returns `none`. -/
theorem c6_decal_values_required (fs : JObj)
    (h : getField fs "values" = none) :
    Decal.deserializeFields fs = none := by
  simp only [Decal.deserializeFields, Option.bind_eq_bind]
  cases reqField fs "x" decF32 with
  | none => rfl
  | some xv =>
  simp only [Option.some_bind]
  cases reqField fs "y" decF32 with
  | none => rfl
  | some yv =>
  simp only [Option.some_bind]
  cases optJField fs "scaleX" decF32 with
  | none => rfl
  | some sx =>
  simp only [Option.some_bind]
  cases optJField fs "scaleY" decF32 with
  | none => rfl
  | some sy =>
  simp only [Option.some_bind]
  cases optJField fs "rotation" decF32 with
  | none => rfl
  | some ro =>
  simp only [Option.some_bind]
  cases reqField fs "texture" decStr with
  | none => rfl
  | some tx =>
  simp only [Option.some_bind]
  simp [reqField, h]

theorem c6_decal_values_required_witness :
    getField [("x", Json.num 1), ("y", Json.num 2),
      ("texture", Json.str "a.png")] "values" = none ∧
    Decal.deserializeFields [("x", Json.num 1), ("y", Json.num 2),
      ("texture", Json.str "a.png")] = none :=
  ⟨rfl, c6_decal_values_required _ rfl⟩

/-- **C7**: each optional entity attribute (width, height, originX,
originY, rotation, flippedX, flippedY, nodes, values) is omitted from the
serialized object entirely when it is `none` in the model (first
component), and decodes to `none` when the field is absent from the input
object (second component). -/
theorem c7_entity_optional_fields :
    (∀ e : Entity,
      (e.width = none → (Entity.serialize e).getF "width" = none) ∧
      (e.height = none → (Entity.serialize e).getF "height" = none) ∧
      (e.origin_x = none → (Entity.serialize e).getF "originX" = none) ∧
      (e.origin_y = none → (Entity.serialize e).getF "originY" = none) ∧
      (e.rotation = none → (Entity.serialize e).getF "rotation" = none) ∧
      (e.flipped_x = none → (Entity.serialize e).getF "flippedX" = none) ∧
      (e.flipped_y = none → (Entity.serialize e).getF "flippedY" = none) ∧
      (e.nodes = none → (Entity.serialize e).getF "nodes" = none) ∧
      (e.values = none → (Entity.serialize e).getF "values" = none)) ∧
    (∀ (fs : JObj) (e : Entity), Entity.deserializeFields fs = some e →
      (getField fs "width" = none → e.width = none) ∧
      (getField fs "height" = none → e.height = none) ∧
      (getField fs "originX" = none → e.origin_x = none) ∧
      (getField fs "originY" = none → e.origin_y = none) ∧
      (getField fs "rotation" = none → e.rotation = none) ∧
      (getField fs "flippedX" = none → e.flipped_x = none) ∧
      (getField fs "flippedY" = none → e.flipped_y = none) ∧
      (getField fs "nodes" = none → e.nodes = none) ∧
      (getField fs "values" = none → e.values = none)) := by
  constructor
  · intro e
    refine ⟨?_, ?_, ?_, ?_, ?_, ?_, ?_, ?_, ?_⟩ <;> intro hnone <;>
      simp only [Entity.serialize, Json.getF, List.append_assoc,
        List.cons_append, List.nil_append, hnone, getField,
        String.reduceEq, reduceIte, ne_eq, not_false_eq_true,
        getField_optField_append_self, getField_optField_append_ne,
        getField_optField_self, getField_optField_ne, Option.map_none']
  · intro fs e hde
    unfold Entity.deserializeFields at hde
    obtain ⟨nm, hnm, hde⟩ := Option.bind_eq_some.mp hde
    obtain ⟨idv, hid, hde⟩ := Option.bind_eq_some.mp hde
    obtain ⟨eid, heid, hde⟩ := Option.bind_eq_some.mp hde
    obtain ⟨xv, hx2, hde⟩ := Option.bind_eq_some.mp hde
    obtain ⟨yv, hy2, hde⟩ := Option.bind_eq_some.mp hde
    obtain ⟨w, hw, hde⟩ := Option.bind_eq_some.mp hde
    obtain ⟨hgt, hh, hde⟩ := Option.bind_eq_some.mp hde
    obtain ⟨ox, hox, hde⟩ := Option.bind_eq_some.mp hde
    obtain ⟨oy, hoy, hde⟩ := Option.bind_eq_some.mp hde
    obtain ⟨ro, hro, hde⟩ := Option.bind_eq_some.mp hde
    obtain ⟨fx, hfx, hde⟩ := Option.bind_eq_some.mp hde
    obtain ⟨fy, hfy, hde⟩ := Option.bind_eq_some.mp hde
    obtain ⟨nd, hnd, hde⟩ := Option.bind_eq_some.mp hde
    obtain ⟨vl, hvl, hde⟩ := Option.bind_eq_some.mp hde
    obtain rfl := Option.some_inj.mp hde
    refine ⟨fun hmiss => ?_, fun hmiss => ?_, fun hmiss => ?_, fun hmiss => ?_,
      fun hmiss => ?_, fun hmiss => ?_, fun hmiss => ?_, fun hmiss => ?_,
      fun hmiss => ?_⟩
    · rw [optJField, hmiss] at hw
      exact decOpt_none_eq hw
    · rw [optJField, hmiss] at hh
      exact decOpt_none_eq hh
    · rw [optJField, hmiss] at hox
      exact decOpt_none_eq hox
    · rw [optJField, hmiss] at hoy
      exact decOpt_none_eq hoy
    · rw [optJField, hmiss] at hro
      exact decOpt_none_eq hro
    · rw [optJField, hmiss] at hfx
      exact decOpt_none_eq hfx
    · rw [optJField, hmiss] at hfy
      exact decOpt_none_eq hfy
    · rw [optJField, hmiss] at hnd
      exact decOpt_none_eq hnd
    · rw [optJField, hmiss] at hvl
      exact decOpt_none_eq hvl

theorem c7_entity_optional_fields_witness :
    (Entity.serialize entityA).getF "rotation" = none ∧
    (Entity.serialize entityA).getF "width" = none ∧
    entityA.rotation = none ∧ entityA.width = none :=
  ⟨(c7_entity_optional_fields.1 entityA).2.2.2.2.1 rfl,
   (c7_entity_optional_fields.1 entityA).1 rfl,
   (c7_entity_optional_fields.2 entityFieldsA entityA rfl).2.2.2.2.1 rfl,
   (c7_entity_optional_fields.2 entityFieldsA entityA rfl).1 rfl⟩

/-- **C1** counterexample: the level document `levelDocA`, which omits the
optional `values` field, is accepted by the parser, but serializing the
parsed level emits an explicit empty `values` object, so the re-serialized
value tree is NOT structurally equal to the original document's tree. -/
theorem c1_roundtrip_counterexample :
    Level.from_json levelDocA = some levelA ∧
    jsonEq (Level.to_json levelA) levelDocA = false := ⟨rfl, rfl⟩

/-- **C1** (corrected): the round-trip identity holds in the other
composition order — parse after serialize is the identity on parsed
models: every well-formed level or project model re-parses from its own
serialization to itself.  The document-level identity the spec claims is
refuted by the counterexample (a document omitting the optional `values`
field re-serializes with an explicit empty `values` object). -/
theorem c1_model_roundtrip :
    (∀ l : Level, l.wf → Level.from_json (Level.to_json l) = some l) ∧
    (∀ p : Project, p.wf → Project.from_json (Project.to_json p) = some p) :=
  ⟨level_roundtrip, project_roundtrip⟩

theorem c1_model_roundtrip_witness :
    (levelB.wf ∧ Level.from_json (Level.to_json levelB) = some levelB) ∧
    projectA.wf ∧ Project.from_json (Project.to_json projectA) = some projectA :=
  ⟨⟨by decide, c1_model_roundtrip.1 levelB (by decide)⟩, by decide,
   c1_model_roundtrip.2 projectA (by decide)⟩

end Ogmo
